import Mathlib

/-!
# ClearLease core pipeline — formal model and verification

A shallow embedding of the ClearLease rule-driven classification and
explanation pipeline (ingestion → extraction signals → risk aggregation →
structural risk fields → trap detection → risk chains → tiered explanation →
aggregation gateway), together with theorems settling the specification
claims about it.

Python dictionaries keyed by strings are modelled as association lists,
Python sets as insertion-ordered duplicate-free lists, `datetime.utcnow()`
and `uuid.uuid4()` as explicit parameters (a timestamp string, a stream of
hex strings), and raising code as `Except String`.
-/

set_option maxHeartbeats 1000000

namespace ClearLease

/-- Does the character list start with the given pattern? -/
def charsStartWith : List Char → List Char → Bool
  | _, [] => true
  | [], _ :: _ => false
  | h :: hs, p :: ps => h = p && charsStartWith hs ps

/-- Does the character list contain the pattern as a contiguous run? -/
def charsContain (haystack pattern : List Char) : Bool :=
  match haystack with
  | [] => charsStartWith [] pattern
  | c :: hs => charsStartWith (c :: hs) pattern || charsContain hs pattern

/-- Python's `needle in haystack` substring test. -/
def strContains (haystack needle : String) : Bool :=
  charsContain haystack.toList needle.toList

/-- ASCII lower-casing of one character (Python `str.lower` on the
ASCII range; other characters are left unchanged). -/
def charToLower (c : Char) : Char :=
  if 65 ≤ c.toNat ∧ c.toNat ≤ 90 then Char.ofNat (c.toNat + 32) else c

/-- Python's `str.lower()`. -/
def strLower (s : String) : String :=
  ⟨s.data.map charToLower⟩

/-! ## Data models (backend/models/data_models.py) -/

/-- `ExtractedSignal` — input format for the analysis layer. -/
structure ExtractedSignal where
  rule_id : String
  type : String
  hit_text : String
  block_id : String
  order : Nat
deriving DecidableEq, Repr

/-- `RiskItem` — a risk identified during analysis v0. -/
structure RiskItem where
  risk_code : String
  severity : String
  evidence_rules : List String
  description : String
deriving DecidableEq, Repr

/-- `AnalysisSummary` — summary of the analysis results v0. -/
structure AnalysisSummary where
  risk_level : String
  risk_flags : List String
  confidence : ℚ
deriving DecidableEq, Repr

/-- `RiskAxis` enumeration. -/
inductive RiskAxis where
  | temporal
  | responsibility
  | liability
deriving DecidableEq, Repr

/-- The string value of a `RiskAxis` (Python enum `.value`). -/
def RiskAxis.value : RiskAxis → String
  | .temporal => "temporal"
  | .responsibility => "responsibility"
  | .liability => "liability"

/-- `RiskField` — a structural (v1) risk field. -/
structure RiskField where
  axis : RiskAxis
  affected_party : String
  intensity : String
  compounding : Bool
  description : String
  source_blocks : List String
deriving DecidableEq, Repr

/-- `AnalysisOutput` — output contract of the analysis layer. -/
structure AnalysisOutput where
  analysis_summary : AnalysisSummary
  risk_items : List RiskItem
  risk_fields : List RiskField := []
deriving DecidableEq, Repr

/-- `AnalysisInput` — input contract of the analysis layer. -/
structure AnalysisInput where
  doc_id : String
  extracted_signals : List ExtractedSignal
deriving DecidableEq, Repr

/-! ## Structural Risk-Field Builder (backend/layers/analysis/risk_builder_v1.py) -/

/-- Keyword set of `_has_responsibility_transfer`. -/
def responsibilityKeywords : List String :=
  ["responsible for", "maintenance", "repair", "hvac", "plumbing", "electrical"]

/-- The negation guard of `_has_responsibility_transfer`:
the matched text contains a negative responsibility phrase. -/
def respNegationGuard (hit_text_lower : String) : Bool :=
  strContains hit_text_lower "not be responsible for" ||
    strContains hit_text_lower "not responsible for"

/-- `RiskBuilderV1._has_responsibility_transfer`: some signal passes the
negation guard and contains a responsibility keyword. -/
def hasResponsibilityTransfer (signals : List ExtractedSignal)
    (_analysis_output : AnalysisOutput) : Bool :=
  signals.any fun signal =>
    let hit_text_lower := (strLower signal.hit_text)
    if respNegationGuard hit_text_lower then false
    else responsibilityKeywords.any fun keyword => strContains hit_text_lower keyword

/-- `RiskBuilderV1._has_liability_risk`. -/
def hasLiabilityRisk (signals : List ExtractedSignal)
    (analysis_output : AnalysisOutput) : Bool :=
  let risk_codes := analysis_output.risk_items.map (·.risk_code)
  if risk_codes.contains "LIABILITY_LIMITATION" then true
  else signals.any fun signal =>
    let hit_text_lower := (strLower signal.hit_text)
    strContains hit_text_lower "not be liable" ||
      strContains hit_text_lower "not be responsible for"

/-- Keyword set of `_has_temporal_risk`. -/
def temporalKeywords : List String :=
  ["automatically renew", "automatic renewal", "auto renew", "shall automatically renew"]

/-- `RiskBuilderV1._has_temporal_risk`. -/
def hasTemporalRisk (signals : List ExtractedSignal)
    (analysis_output : AnalysisOutput) : Bool :=
  let risk_codes := analysis_output.risk_items.map (·.risk_code)
  if risk_codes.contains "EARLY_TERMINATION_PENALTY" then true
  else signals.any fun signal =>
    let hit_text_lower := (strLower signal.hit_text)
    temporalKeywords.any fun keyword => strContains hit_text_lower keyword

/-- Python `set.add` on an insertion-ordered duplicate-free list. -/
def addBlockId (block_ids : List String) (b : String) : List String :=
  if block_ids.contains b then block_ids else block_ids ++ [b]

/-- Generic source-block collector: the set of `block_id`s of signals whose
lowered hit text contains one of the keywords. -/
def collectSourceBlocks (keywords : List String)
    (signals : List ExtractedSignal) : List String :=
  signals.foldl
    (fun block_ids signal =>
      if keywords.any (fun keyword => strContains (strLower signal.hit_text) keyword) then
        addBlockId block_ids signal.block_id
      else block_ids)
    []

/-- `RiskBuilderV1._get_source_blocks_for_responsibility`.
Note: this uses `responsibilityKeywords` with NO negation guard. -/
def getSourceBlocksForResponsibility (signals : List ExtractedSignal) : List String :=
  collectSourceBlocks responsibilityKeywords signals

/-- Keyword set of `_get_source_blocks_for_liability`. -/
def liabilitySourceKeywords : List String :=
  ["not liable", "not be held liable", "not be responsible", "disclaimer", "as-is", "as is"]

/-- `RiskBuilderV1._get_source_blocks_for_liability`. -/
def getSourceBlocksForLiability (signals : List ExtractedSignal) : List String :=
  collectSourceBlocks liabilitySourceKeywords signals

/-- Keyword set of `_get_source_blocks_for_temporal`. -/
def temporalSourceKeywords : List String :=
  ["automatically renew", "automatic renewal", "auto renew", "shall automatically renew",
   "early termination", "penalty"]

/-- `RiskBuilderV1._get_source_blocks_for_temporal`. -/
def getSourceBlocksForTemporal (signals : List ExtractedSignal) : List String :=
  collectSourceBlocks temporalSourceKeywords signals

/-- `RiskBuilderV1.build`: derive structural risk fields from the v0 analysis
output and the extracted signals. -/
def RiskBuilderV1.build (analysis_output : AnalysisOutput)
    (extracted_signals : List ExtractedSignal) : List RiskField :=
  (if hasResponsibilityTransfer extracted_signals analysis_output then
    [{ axis := .responsibility, affected_party := "tenant", intensity := "high",
       compounding := true, description := "房东将维护责任转嫁给租客。",
       source_blocks := getSourceBlocksForResponsibility extracted_signals }]
   else []) ++
  (if hasLiabilityRisk extracted_signals analysis_output then
    [{ axis := .liability, affected_party := "tenant", intensity := "high",
       compounding := true, description := "房东设置免责条款，限制其责任。",
       source_blocks := getSourceBlocksForLiability extracted_signals }]
   else []) ++
  (if hasTemporalRisk extracted_signals analysis_output then
    [{ axis := .temporal, affected_party := "tenant", intensity := "medium",
       compounding := false, description := "合同包含自动续约或提前解约惩罚条款。",
       source_blocks := getSourceBlocksForTemporal extracted_signals }]
   else [])

/-! ## Risk Aggregator (backend/layers/analysis/analysis_service.py) -/

/-- One entry of the loaded risk-mapping table (`rule_id → {risk_code, severity,
description}`). -/
structure RiskMapping where
  risk_code : String
  severity : String
  description : String
deriving DecidableEq, Repr

/-- The loaded `risk_mappings` dictionary, as an association list on `rule_id`. -/
abbrev RiskMappings := List (String × RiskMapping)

/-- Dictionary lookup `self.risk_mappings[rule_id]`. -/
def lookupMapping (mappings : RiskMappings) (rule_id : String) : Option RiskMapping :=
  mappings.lookup rule_id

/-- The risk code a signal maps to, if its rule is known. -/
def riskCodeOf (mappings : RiskMappings) (signal : ExtractedSignal) : Option String :=
  (lookupMapping mappings signal.rule_id).map (·.risk_code)

/-- One accumulated entry of `risk_evidence` (keyed by `risk_code`,
in insertion order as in a Python dict). -/
structure EvidenceEntry where
  risk_code : String
  rule_ids : List String
  description : String
deriving DecidableEq, Repr

/-- `risk_evidence[risk_code]['rule_ids'].append(rule_id)` together with the
last-write of the description; creates the entry at the end on first use. -/
def updateEvidence (acc : List EvidenceEntry)
    (risk_code rule_id description : String) : List EvidenceEntry :=
  match acc with
  | [] => [{ risk_code := risk_code, rule_ids := [rule_id], description := description }]
  | e :: rest =>
    if e.risk_code = risk_code then
      { e with rule_ids := e.rule_ids ++ [rule_id], description := description } :: rest
    else e :: updateEvidence rest risk_code rule_id description

/-- One iteration of the evidence-aggregation loop of `AnalysisService.analyze`:
known rules contribute to their risk code's entry, unknown rules are dropped. -/
def analyzeStep (mappings : RiskMappings) (acc : List EvidenceEntry)
    (signal : ExtractedSignal) : List EvidenceEntry :=
  match lookupMapping mappings signal.rule_id with
  | some m => updateEvidence acc m.risk_code signal.rule_id m.description
  | none => acc

/-- The evidence-aggregation loop of `AnalysisService.analyze`. -/
def aggregateEvidence (mappings : RiskMappings)
    (signals : List ExtractedSignal) : List EvidenceEntry :=
  signals.foldl (analyzeStep mappings) []

/-- `AnalysisService.analyze`: map rule ids to risk codes, aggregate evidence
per code, build risk items (severity hard-coded to `"low"`), a summary whose
`risk_level` is hard-coded to `"low"`, and the v1 risk fields. -/
def analyze (mappings : RiskMappings) (input_data : AnalysisInput) : AnalysisOutput :=
  let risk_evidence := aggregateEvidence mappings input_data.extracted_signals
  let risk_items := (risk_evidence.filter (fun e => ¬ e.rule_ids.isEmpty)).map
    (fun e => { risk_code := e.risk_code, severity := "low",
                evidence_rules := e.rule_ids, description := e.description : RiskItem })
  let risk_flags := (risk_evidence.filter (fun e => ¬ e.rule_ids.isEmpty)).map (·.risk_code)
  let analysis_summary : AnalysisSummary :=
    { risk_level := "low", risk_flags := risk_flags, confidence := 1 }
  let temp_output : AnalysisOutput :=
    { analysis_summary := analysis_summary, risk_items := risk_items }
  let risk_fields := RiskBuilderV1.build temp_output input_data.extracted_signals
  { analysis_summary := analysis_summary, risk_items := risk_items,
    risk_fields := risk_fields }

/-- `AnalysisService._calculate_overall_risk_level` — present in the source but
never called from `analyze` (marked deprecated / reserved for v1+). -/
def calculateOverallRiskLevel (severities : List String) : String :=
  if severities.isEmpty then "low"
  else if severities.contains "high" then "high"
  else if severities.contains "medium" then "medium"
  else "low"

/-! ## Lemmas about evidence aggregation -/

/-- The accumulated rule ids for a given risk code. -/
def evidenceRulesOf : List EvidenceEntry → String → List String
  | [], _ => []
  | e :: rest, c => if e.risk_code = c then e.rule_ids else evidenceRulesOf rest c

/-- The risk codes of the accumulator, in insertion order. -/
def evidenceCodes (acc : List EvidenceEntry) : List String :=
  acc.map (·.risk_code)

theorem evidenceCodes_cons (e : EvidenceEntry) (l : List EvidenceEntry) :
    evidenceCodes (e :: l) = e.risk_code :: evidenceCodes l := rfl

theorem evidenceRulesOf_update (acc : List EvidenceEntry) (c rid d c' : String) :
    evidenceRulesOf (updateEvidence acc c rid d) c' =
      if c' = c then evidenceRulesOf acc c ++ [rid] else evidenceRulesOf acc c' := by
  induction acc with
  | nil =>
    by_cases h : c' = c
    · subst h; simp [updateEvidence, evidenceRulesOf]
    · have h2 : ¬ c = c' := fun hh => h hh.symm
      simp [updateEvidence, evidenceRulesOf, h, h2]
  | cons e rest ih =>
    by_cases he : e.risk_code = c
    · by_cases h : c' = c
      · subst h
        simp [updateEvidence, evidenceRulesOf, he]
      · have hec : ¬ e.risk_code = c' := fun hh => h (hh.symm.trans he)
        have h2 : ¬ c = c' := fun hh => h hh.symm
        simp [updateEvidence, evidenceRulesOf, he, hec, h, h2]
    · by_cases hec : e.risk_code = c'
      · have h : ¬ c' = c := fun hh => he (hec.trans hh)
        simp [updateEvidence, evidenceRulesOf, he, hec, h]
      · simp [updateEvidence, evidenceRulesOf, he, hec, ih]

theorem evidenceCodes_update (acc : List EvidenceEntry) (c rid d : String) :
    evidenceCodes (updateEvidence acc c rid d) =
      if c ∈ evidenceCodes acc then evidenceCodes acc else evidenceCodes acc ++ [c] := by
  induction acc with
  | nil => simp [updateEvidence, evidenceCodes]
  | cons e rest ih =>
    by_cases he : e.risk_code = c
    · have hmem : c ∈ evidenceCodes (e :: rest) := by
        simp [evidenceCodes_cons, he]
      simp [updateEvidence, he, hmem, evidenceCodes_cons]
    · have h2 : ¬ c = e.risk_code := fun hh => he hh.symm
      by_cases hc : c ∈ evidenceCodes rest
      · rw [if_pos (by simp [evidenceCodes_cons, hc])]
        simp [updateEvidence, he, evidenceCodes_cons, ih, hc]
      · rw [if_neg (by simp [evidenceCodes_cons, h2, hc])]
        simp [updateEvidence, he, evidenceCodes_cons, ih, hc]

theorem evidenceCodes_update_nodup (acc : List EvidenceEntry) (c rid d : String)
    (h : (evidenceCodes acc).Nodup) :
    (evidenceCodes (updateEvidence acc c rid d)).Nodup := by
  rw [evidenceCodes_update]
  split_ifs with hc
  · exact h
  · simp [List.nodup_append, h, hc]

theorem evidenceCodes_foldl_nodup (m : RiskMappings) (signals : List ExtractedSignal) :
    ∀ acc : List EvidenceEntry, (evidenceCodes acc).Nodup →
      (evidenceCodes (signals.foldl (analyzeStep m) acc)).Nodup := by
  induction signals with
  | nil => intro acc h; exact h
  | cons s rest ih =>
    intro acc h
    simp only [List.foldl_cons]
    apply ih
    unfold analyzeStep
    cases lookupMapping m s.rule_id with
    | none => exact h
    | some mp => exact evidenceCodes_update_nodup acc mp.risk_code s.rule_id mp.description h

theorem evidenceRulesOf_of_mem (acc : List EvidenceEntry) (e : EvidenceEntry)
    (hmem : e ∈ acc) (hnd : (evidenceCodes acc).Nodup) :
    evidenceRulesOf acc e.risk_code = e.rule_ids := by
  induction acc with
  | nil => cases hmem
  | cons a rest ih =>
    rcases List.mem_cons.mp hmem with rfl | hrest
    · simp [evidenceRulesOf]
    · have hnd' : (evidenceCodes rest).Nodup := (List.nodup_cons.mp hnd).2
      have hne : ¬ a.risk_code = e.risk_code := by
        intro hh
        have : a.risk_code ∈ evidenceCodes rest := by
          rw [hh]; exact List.mem_map_of_mem _ hrest
        exact (List.nodup_cons.mp hnd).1 this
      simp [evidenceRulesOf, hne, ih hrest hnd']

theorem evidenceRulesOf_foldl (m : RiskMappings) (signals : List ExtractedSignal) :
    ∀ (acc : List EvidenceEntry) (c : String),
      evidenceRulesOf (signals.foldl (analyzeStep m) acc) c =
        evidenceRulesOf acc c ++
          (signals.filter (fun s => riskCodeOf m s = some c)).map (·.rule_id) := by
  induction signals with
  | nil => intro acc c; simp
  | cons s rest ih =>
    intro acc c
    simp only [List.foldl_cons]
    rw [ih]
    cases hm : lookupMapping m s.rule_id with
    | none =>
      have hcode : riskCodeOf m s = none := by simp [riskCodeOf, hm]
      simp [analyzeStep, hm, List.filter_cons, hcode]
    | some mp =>
      have hcode : riskCodeOf m s = some mp.risk_code := by simp [riskCodeOf, hm]
      by_cases hc : c = mp.risk_code
      · subst hc
        simp [analyzeStep, hm, List.filter_cons, hcode, evidenceRulesOf_update]
      · have : ¬ riskCodeOf m s = some c := by
          rw [hcode]; exact fun hh => hc (Option.some_injective _ hh).symm
        simp [analyzeStep, hm, List.filter_cons, this, evidenceRulesOf_update, hc]

theorem evidenceRulesOf_aggregate (m : RiskMappings) (signals : List ExtractedSignal)
    (c : String) :
    evidenceRulesOf (aggregateEvidence m signals) c =
      (signals.filter (fun s => riskCodeOf m s = some c)).map (·.rule_id) := by
  unfold aggregateEvidence
  rw [evidenceRulesOf_foldl]
  rfl

theorem aggregateEvidence_codes_nodup (m : RiskMappings) (signals : List ExtractedSignal) :
    (evidenceCodes (aggregateEvidence m signals)).Nodup :=
  evidenceCodes_foldl_nodup m signals [] (by simp [evidenceCodes])

/-! ## Lemmas about the risk-field builder -/

theorem mem_addBlockId (l : List String) (x b : String) :
    b ∈ addBlockId l x ↔ b ∈ l ∨ b = x := by
  unfold addBlockId
  split_ifs with h
  · have hx : x ∈ l := by simpa using h
    constructor
    · exact Or.inl
    · rintro (hb | rfl)
      · exact hb
      · exact hx
  · simp

theorem mem_collectSourceBlocks_go (keywords : List String)
    (signals : List ExtractedSignal) :
    ∀ (acc : List String) (b : String),
      b ∈ signals.foldl
          (fun block_ids signal =>
            if keywords.any (fun keyword => strContains (strLower signal.hit_text) keyword) then
              addBlockId block_ids signal.block_id
            else block_ids) acc ↔
        b ∈ acc ∨ ∃ s ∈ signals, s.block_id = b ∧
          ∃ k ∈ keywords, strContains (strLower s.hit_text) k = true := by
  induction signals with
  | nil => intro acc b; simp
  | cons s rest ih =>
    intro acc b
    simp only [List.foldl_cons]
    by_cases hk : keywords.any (fun keyword => strContains (strLower s.hit_text) keyword) = true
    · rw [if_pos hk, ih, mem_addBlockId]
      obtain ⟨k, hkmem, hkc⟩ := List.any_eq_true.mp hk
      constructor
      · rintro (⟨hacc | rfl⟩ | ⟨s', hs', hb, hkw⟩)
        · exact Or.inl hacc
        · exact Or.inr ⟨s, List.mem_cons_self s rest, rfl, k, hkmem, hkc⟩
        · exact Or.inr ⟨s', List.mem_cons_of_mem s hs', hb, hkw⟩
      · rintro (hacc | ⟨s', hs', hb, hkw⟩)
        · exact Or.inl (Or.inl hacc)
        · rcases List.mem_cons.mp hs' with rfl | hs'rest
          · exact Or.inl (Or.inr hb.symm)
          · exact Or.inr ⟨s', hs'rest, hb, hkw⟩
    · rw [if_neg hk, ih]
      constructor
      · rintro (hacc | ⟨s', hs', hb, hkw⟩)
        · exact Or.inl hacc
        · exact Or.inr ⟨s', List.mem_cons_of_mem s hs', hb, hkw⟩
      · rintro (hacc | ⟨s', hs', hb, k, hkmem, hkc⟩)
        · exact Or.inl hacc
        · rcases List.mem_cons.mp hs' with rfl | hs'rest
          · exact absurd (List.any_eq_true.mpr ⟨k, hkmem, hkc⟩) hk
          · exact Or.inr ⟨s', hs'rest, hb, k, hkmem, hkc⟩

theorem mem_collectSourceBlocks (keywords : List String)
    (signals : List ExtractedSignal) (b : String) :
    b ∈ collectSourceBlocks keywords signals ↔
      ∃ s ∈ signals, s.block_id = b ∧
        ∃ k ∈ keywords, strContains (strLower s.hit_text) k = true := by
  unfold collectSourceBlocks
  rw [mem_collectSourceBlocks_go]
  simp

theorem hasResponsibilityTransfer_iff (signals : List ExtractedSignal)
    (a : AnalysisOutput) :
    hasResponsibilityTransfer signals a = true ↔
      ∃ s ∈ signals, respNegationGuard (strLower s.hit_text) = false ∧
        ∃ k ∈ responsibilityKeywords, strContains (strLower s.hit_text) k = true := by
  unfold hasResponsibilityTransfer
  rw [List.any_eq_true]
  apply exists_congr; intro s
  apply and_congr_right; intro _
  cases hg : respNegationGuard (strLower s.hit_text)
  · simp [hg, List.any_eq_true]
  · simp [hg]

/-! ## Claim C1 — overall risk level -/

/-- A risk-mapping table carrying one high-severity rule, as in the repository's
own test `test_risk_level_calculation_high`. -/
def highSeverityMappings : RiskMappings :=
  [("phrase_003", { risk_code := "LIMITED_NOTICE", severity := "high",
                    description := "Notice period for termination is limited" })]

/-- One signal matching the high-severity rule. -/
def highSeverityInput : AnalysisInput :=
  { doc_id := "test_doc_007",
    extracted_signals :=
      [{ rule_id := "phrase_003", type := "phrase", hit_text := "limited notice",
         block_id := "block_0", order := 0 }] }

/-- **C1.** The claim says `AnalysisSummary.risk_level` equals the maximum severity
among the emitted RiskItems under precedence high > medium > low, so a single
high-severity risk code should force overall `risk_level = "high"`. The code does
not do this: `analyze` hard-codes `risk_level = "low"` (and every RiskItem's
severity to `"low"`), ignoring the severity recorded in the rule table, and never
calls `_calculate_overall_risk_level` — which does implement the claimed maximum.
At a signal whose rule maps to severity `"high"`, `analyze` returns
`risk_level = "low"`, contradicting the claim and the repository's own test
`test_risk_level_calculation_high`. -/
theorem analyze_ignores_mapped_severity :
    (lookupMapping highSeverityMappings "phrase_003").map (·.severity) = some "high" ∧
    ((analyze highSeverityMappings highSeverityInput).risk_items.map
        (fun i => (i.risk_code, i.severity))) = [("LIMITED_NOTICE", "low")] ∧
    (analyze highSeverityMappings highSeverityInput).analysis_summary.risk_level = "low" ∧
    (analyze highSeverityMappings highSeverityInput).analysis_summary.risk_level ≠ "high" ∧
    calculateOverallRiskLevel ["high"] = "high" := by
  decide

/-! ## Claim C8 — evidence accumulation -/

/-- A risk-mapping table with one known rule, as in the repository's test
`test_analyze_with_multiple_signals_same_risk`. -/
def dupRuleMappings : RiskMappings :=
  [("keyword_001", { risk_code := "AUTO_RENEWAL", severity := "medium",
                     description := "Automatic renewal related terms detected" })]

/-- Two signals produced by the same rule (the same rule matched twice). -/
def dupRuleInput : AnalysisInput :=
  { doc_id := "test_doc_003",
    extracted_signals :=
      [{ rule_id := "keyword_001", type := "keyword", hit_text := "lease",
         block_id := "block_0", order := 0 },
       { rule_id := "keyword_001", type := "keyword", hit_text := "tenant",
         block_id := "block_0", order := 1 }] }

/-- **C8, counterexample.** The claim says no rule id appears more than once in a
RiskItem's evidence even when the same rule matched several times. In the code
`analyze` appends to a list (`risk_evidence[risk_code]['rule_ids'].append(...)`),
so two matches of `keyword_001` put it in the evidence twice — the behaviour the
repository's own test `test_analyze_with_multiple_signals_same_risk` asserts
(evidence length 2). -/
theorem analyze_evidence_duplicates_rule_ids :
    ((analyze dupRuleMappings dupRuleInput).risk_items.map (·.evidence_rules)) =
      [["keyword_001", "keyword_001"]] ∧
    ((analyze dupRuleMappings dupRuleInput).risk_items.map
        (fun i => i.evidence_rules.count "keyword_001")) = [2] := by
  decide

/-- **C8, amended.** Each RiskItem emitted by the Risk Aggregator carries as
evidence the list (not set) of the rule ids of all contributing signals for its
risk code, in signal order: every known rule id that mapped to the code appears,
and a rule id appears once per matching signal, so it occurs more than once when
the same rule matched several times. -/
theorem analyze_evidence_rules_characterization :
    ∀ (mappings : RiskMappings) (input : AnalysisInput) (item : RiskItem),
      item ∈ (analyze mappings input).risk_items →
        item.evidence_rules =
            ((input.extracted_signals.filter
                (fun s => riskCodeOf mappings s = some item.risk_code)).map (·.rule_id)) ∧
          ∀ s ∈ input.extracted_signals, riskCodeOf mappings s = some item.risk_code →
            s.rule_id ∈ item.evidence_rules := by
  intro mappings input item hmem
  simp only [analyze, List.mem_map, List.mem_filter] at hmem
  obtain ⟨e, ⟨hagg, -⟩, rfl⟩ := hmem
  have hrules : e.rule_ids =
      ((input.extracted_signals.filter
        (fun s => riskCodeOf mappings s = some e.risk_code)).map (·.rule_id)) := by
    rw [← evidenceRulesOf_aggregate mappings input.extracted_signals e.risk_code]
    exact (evidenceRulesOf_of_mem _ e hagg
      (aggregateEvidence_codes_nodup mappings input.extracted_signals)).symm
  refine ⟨hrules, ?_⟩
  intro s hs hcode
  rw [hrules]
  exact List.mem_map_of_mem _ (List.mem_filter.mpr ⟨hs, by simpa using hcode⟩)

/-- The RiskItem `analyze` emits on `dupRuleInput`. -/
def dupRuleItem : RiskItem :=
  { risk_code := "AUTO_RENEWAL", severity := "low",
    evidence_rules := ["keyword_001", "keyword_001"],
    description := "Automatic renewal related terms detected" }

/-- Witness for the amended C8 theorem at a concrete aggregation run. -/
theorem analyze_evidence_rules_characterization_witness :
    dupRuleItem ∈ (analyze dupRuleMappings dupRuleInput).risk_items ∧
      dupRuleItem.evidence_rules =
        ((dupRuleInput.extracted_signals.filter
            (fun s => riskCodeOf dupRuleMappings s = some dupRuleItem.risk_code)).map
          (·.rule_id)) :=
  ⟨by decide,
   (analyze_evidence_rules_characterization dupRuleMappings dupRuleInput dupRuleItem
      (by decide)).1⟩

/-! ## Claim C9 — responsibility source blocks and the negation guard -/

/-- Signals for the C9 counterexample: one positive responsibility signal from
block `b1`, and one negation-guarded signal (text contains
"not responsible for") from block `b2`. -/
def negationSignals : List ExtractedSignal :=
  [{ rule_id := "r1", type := "keyword", hit_text := "Tenant shall repair the unit",
     block_id := "b1", order := 0 },
   { rule_id := "r2", type := "keyword",
     hit_text := "Landlord is not responsible for maintenance",
     block_id := "b2", order := 1 }]

/-- An analysis output with no risk items, for the C9 counterexample. -/
def negationAnalysisOutput : AnalysisOutput :=
  { analysis_summary := { risk_level := "low", risk_flags := [], confidence := 1 },
    risk_items := [] }

/-- **C9, counterexample.** The claim says a signal excluded by the negation
guard does not contribute its segment to `source_segment_ids`. In the code the
guard is applied in `_has_responsibility_transfer` but NOT in
`_get_source_blocks_for_responsibility`: the `b2` signal contains the negation
phrase "not responsible for" (and so cannot make the axis fire), yet the
responsibility RiskField's source blocks are `["b1", "b2"]`, including `b2` on
that signal's account — `b2`'s only signal is the negation-guarded one. -/
theorem responsibility_source_blocks_include_negated_signal :
    ((RiskBuilderV1.build negationAnalysisOutput negationSignals).map
        (fun f => (f.axis, f.source_blocks))) =
      [(RiskAxis.responsibility, ["b1", "b2"])] ∧
    respNegationGuard (strLower (negationSignals.get ⟨1, by decide⟩).hit_text) = true ∧
    ((negationSignals.filter (fun s => s.block_id = "b2")).map (·.rule_id)) = ["r2"] := by
  decide

/-- **C9, amended.** The responsibility axis fires iff some signal passes the
negation guard and contains a responsibility keyword; but the fired RiskField's
source blocks are computed WITHOUT the negation guard: a block id is included
iff some of its signals contains a responsibility keyword, so a negation-guarded
signal still contributes its segment. -/
theorem responsibility_field_source_blocks :
    ∀ (signals : List ExtractedSignal) (a : AnalysisOutput),
      (hasResponsibilityTransfer signals a = true ↔
        ∃ s ∈ signals, respNegationGuard (strLower s.hit_text) = false ∧
          ∃ k ∈ responsibilityKeywords, strContains (strLower s.hit_text) k = true) ∧
      (∀ b, b ∈ getSourceBlocksForResponsibility signals ↔
        ∃ s ∈ signals, s.block_id = b ∧
          ∃ k ∈ responsibilityKeywords, strContains (strLower s.hit_text) k = true) ∧
      (hasResponsibilityTransfer signals a = true →
        ∃ f ∈ RiskBuilderV1.build a signals, f.axis = RiskAxis.responsibility ∧
          f.source_blocks = getSourceBlocksForResponsibility signals) := by
  intro signals a
  refine ⟨hasResponsibilityTransfer_iff signals a,
    fun b => mem_collectSourceBlocks responsibilityKeywords signals b, ?_⟩
  intro h
  refine ⟨{ axis := .responsibility, affected_party := "tenant", intensity := "high",
            compounding := true, description := "房东将维护责任转嫁给租客。",
            source_blocks := getSourceBlocksForResponsibility signals },
    ?_, rfl, rfl⟩
  unfold RiskBuilderV1.build
  rw [if_pos h]
  exact List.mem_append_left _ (List.mem_cons_self _ _)

/-- Witness for the amended C9 theorem at the concrete counterexample signals. -/
theorem responsibility_field_source_blocks_witness :
    hasResponsibilityTransfer negationSignals negationAnalysisOutput = true ∧
      ∃ f ∈ RiskBuilderV1.build negationAnalysisOutput negationSignals,
        f.axis = RiskAxis.responsibility ∧
          f.source_blocks = getSourceBlocksForResponsibility negationSignals :=
  ⟨by decide,
   (responsibility_field_source_blocks negationSignals negationAnalysisOutput).2.2
     (by decide)⟩

/-! ## Trap Engine v2 (backend/layers/analysis/v2/trap_engine.py) -/

/-- A categorical risk signal consumed by the trap engine
(`{type, confidence, details}`). -/
structure RiskSignal where
  type : String
  confidence : String
  details : List (String × String) := []
deriving DecidableEq, Repr

/-- `Trap` dataclass. -/
structure Trap where
  trap_id : String
  trap_type : String
  related_signals : List RiskSignal
  severity : String
deriving DecidableEq, Repr

/-- Defining signal types of the Temporal Lock-in Trap. -/
def temporalSignalTypes : List String :=
  ["AUTO_RENEWAL", "SHORT_NOTICE_WINDOW", "USER_ACTION_REQUIRED"]

/-- Defining signal types of the Asymmetric Power Trap. -/
def asymmetricSignalTypes : List String :=
  ["UNILATERAL_MODIFICATION", "SILENT_ACCEPTANCE", "FINAL_INTERPRETATION_RIGHT"]

/-- Defining signal types of the Exit Barrier Trap. -/
def exitBarrierSignalTypes : List String :=
  ["HIGH_TERMINATION_FEE", "PENALTY_ESCALATION", "EXIT_CONDITION_RESTRICTION"]

/-- Defining signal types of the Interpretation / Ambiguity Trap. -/
def interpretationSignalTypes : List String :=
  ["AMBIGUOUS_TERM", "SUBJECTIVE_CRITERIA", "FINAL_INTERPRETATION_RIGHT"]

/-- The per-detector matching loop of `detect_traps`: signals whose `type`
is in the detector's defining set, in input order. -/
def matchedSignals (risk_signals : List RiskSignal) (types : List String) : List RiskSignal :=
  risk_signals.filter (fun s => types.contains s.type)

/-- The first `n` characters of a string (Python slicing `[:n]`). -/
def strTake (s : String) (n : Nat) : String :=
  ⟨s.data.take n⟩

/-- `f"trap_{uuid.uuid4().hex[:8]}"`, with the uuid hex digits supplied
externally. -/
def trapIdFrom (uuidHex : String) : String :=
  "trap_" ++ strTake uuidHex 8

/-- One detector block of `detect_traps`: emit a trap iff at least one
defining signal matched, severity `"high"` when at least two matched and the
detector's one-match severity otherwise.  `idx` is the position in the uuid
stream, i.e. the number of traps created before this one. -/
def trapBlock (uuids : Nat → String) (idx : Nat) (trap_type severity1 : String)
    (matched : List RiskSignal) : List Trap :=
  if matched.isEmpty then []
  else [{ trap_id := trapIdFrom (uuids idx), trap_type := trap_type,
          related_signals := matched,
          severity := if 2 ≤ matched.length then "high" else severity1 }]

/-- `TrapEngineV2.detect_traps`, with the stream of uuid hex strings as an
explicit parameter (`uuids k` is the value of the `k`-th `uuid.uuid4().hex`
call of the run). -/
def detectTraps (uuids : Nat → String) (risk_signals : List RiskSignal) : List Trap :=
  let t1 := trapBlock uuids 0 "temporal_lock" "low"
    (matchedSignals risk_signals temporalSignalTypes)
  let t2 := trapBlock uuids t1.length "asymmetric_power" "medium"
    (matchedSignals risk_signals asymmetricSignalTypes)
  let t3 := trapBlock uuids (t1.length + t2.length) "exit_barrier" "medium"
    (matchedSignals risk_signals exitBarrierSignalTypes)
  let t4 := trapBlock uuids (t1.length + t2.length + t3.length)
    "interpretation_ambiguity" "medium"
    (matchedSignals risk_signals interpretationSignalTypes)
  t1 ++ t2 ++ t3 ++ t4

/-! ## Risk-Chain Builder (backend/layers/analysis/v2/risk_chain_builder.py) -/

/-- One step of a risk chain (the step dictionaries of the chain builder). -/
structure RiskStep where
  step_id : String
  description : String
  severity : String
  order : Nat
deriving DecidableEq, Repr

/-- `RiskChain` dataclass. -/
structure RiskChain where
  chain_id : String
  trap_id : String
  steps : List RiskStep
  final_outcome : String
deriving DecidableEq, Repr

/-- `f"chain_{uuid.uuid4().hex[:8]}"`. -/
def chainIdFrom (uuidHex : String) : String :=
  "chain_" ++ strTake uuidHex 8

/-- Steps of `_build_temporal_lock_chain`. -/
def temporalLockSteps : List RiskStep :=
  [{ step_id := "step_1", description := "用户错过操作窗口", severity := "low", order := 1 },
   { step_id := "step_2", description := "自动续约生效", severity := "medium", order := 2 },
   { step_id := "step_3", description := "退出成本上升/合同锁死", severity := "high", order := 3 }]

/-- Steps of `_build_asymmetric_power_chain`. -/
def asymmetricPowerSteps : List RiskStep :=
  [{ step_id := "step_1", description := "合同初始状态看似安全", severity := "low", order := 1 },
   { step_id := "step_2", description := "对方单方面调整条款", severity := "medium", order := 2 },
   { step_id := "step_3", description := "争议发生时用户处于劣势", severity := "high", order := 3 }]

/-- Steps of `_build_exit_barrier_chain`. -/
def exitBarrierSteps : List RiskStep :=
  [{ step_id := "step_1", description := "合同初始阶段看似可自由退出", severity := "low", order := 1 },
   { step_id := "step_2", description := "用户尝试退出时触发高额限制或费用", severity := "medium", order := 2 },
   { step_id := "step_3", description := "用户被迫继续履约或承担显著损失", severity := "high", order := 3 }]

/-- Steps of `_build_interpretation_ambiguity_chain`. -/
def interpretationAmbiguitySteps : List RiskStep :=
  [{ step_id := "step_1", description := "合同条款在签署时看似灵活或无明显风险", severity := "low", order := 1 },
   { step_id := "step_2", description := "实际执行中条款含义被单方面解释", severity := "medium", order := 2 },
   { step_id := "step_3", description := "争议发生时用户因解释权劣势承担不利后果", severity := "high", order := 3 }]

/-- The dispatch of `build_chains` for a single trap: one fixed chain per
recognized `trap_type`, `none` for an unrecognized type. -/
def buildChainFor (uuidHex : String) (trap : Trap) : Option RiskChain :=
  if trap.trap_type = "temporal_lock" then
    some { chain_id := chainIdFrom uuidHex, trap_id := trap.trap_id,
           steps := temporalLockSteps, final_outcome := "用户失去低成本退出路径" }
  else if trap.trap_type = "asymmetric_power" then
    some { chain_id := chainIdFrom uuidHex, trap_id := trap.trap_id,
           steps := asymmetricPowerSteps,
           final_outcome := "用户在未来争议中处于系统性劣势地位" }
  else if trap.trap_type = "exit_barrier" then
    some { chain_id := chainIdFrom uuidHex, trap_id := trap.trap_id,
           steps := exitBarrierSteps,
           final_outcome := "用户在尝试退出合同时遭遇系统性退出障碍，导致被迫承担显著经济损失" }
  else if trap.trap_type = "interpretation_ambiguity" then
    some { chain_id := chainIdFrom uuidHex, trap_id := trap.trap_id,
           steps := interpretationAmbiguitySteps,
           final_outcome := "用户因合同条款解释权不对等，在实际执行或争议中处于系统性不利地位" }
  else none

/-- The loop of `build_chains`; `k` counts the uuid draws consumed so far. -/
def buildChainsAux (uuids : Nat → String) (k : Nat) : List Trap → List RiskChain
  | [] => []
  | trap :: rest =>
    match buildChainFor (uuids k) trap with
    | some chain => chain :: buildChainsAux uuids (k + 1) rest
    | none => buildChainsAux uuids k rest

/-- `RiskChainBuilder.build_chains`, with the uuid stream explicit. -/
def buildChains (uuids : Nat → String) (traps : List Trap) : List RiskChain :=
  buildChainsAux uuids 0 traps

/-! ## Ingestion Service (backend/layers/ingestion/ingestion_service.py) -/

/-- `IngestionInput` (metadata dict modelled as an association list). -/
structure IngestionInput where
  text : String
  source_id : Option String := none
  metadata : Option (List (String × String)) := none
deriving DecidableEq, Repr

/-- `TextBlock`. -/
structure TextBlock where
  block_id : String
  order : Nat
  normalized_text : String
  original_length : Nat
  normalized_length : Nat
  line_count : Nat
  word_count : Nat
deriving DecidableEq, Repr

/-- The metadata dictionary `ingest` builds. -/
structure IngestionMetadata where
  has_source_metadata : Bool
  has_source_id : Bool
  block_count : Nat
  source_metadata_keys : Option (List String) := none
deriving DecidableEq, Repr

/-- `IngestionResult` (the timestamp is an opaque string). -/
structure IngestionResult where
  text_blocks : List TextBlock
  source_id : Option String
  ingestion_timestamp : String
  total_characters : Nat
  total_words : Nat
  metadata : Option IngestionMetadata
deriving DecidableEq, Repr

/-- Splitting a character list on whitespace runs, dropping empties
(Python `str.split()` with no separator); `acc` holds the current word
reversed. -/
def wordsAux : List Char → List Char → List (List Char)
  | [], acc => if acc.isEmpty then [] else [acc.reverse]
  | c :: rest, acc =>
    if c.isWhitespace then
      if acc.isEmpty then wordsAux rest [] else acc.reverse :: wordsAux rest []
    else wordsAux rest (c :: acc)

/-- Python `text.split()`. -/
def pyWords (s : String) : List String :=
  (wordsAux s.data []).map (fun cs => ⟨cs⟩)

/-- Splitting on a newline character (Python `text.split('\n')`). -/
def splitLinesAux : List Char → List Char → List (List Char)
  | [], acc => [acc.reverse]
  | c :: rest, acc =>
    if c = '\n' then acc.reverse :: splitLinesAux rest []
    else splitLinesAux rest (c :: acc)

/-- Python `text.split('\n')`. -/
def splitLines (s : String) : List String :=
  (splitLinesAux s.data []).map (fun cs => ⟨cs⟩)

/-- Python `sep.join(parts)`. -/
def strJoin (sep : String) : List String → String
  | [] => ""
  | [x] => x
  | x :: y :: rest => x ++ sep ++ strJoin sep (y :: rest)

/-- Python `text.strip()`. -/
def pyStrip (s : String) : String :=
  ⟨((s.data.dropWhile Char.isWhitespace).reverse.dropWhile Char.isWhitespace).reverse⟩

/-- `' '.join(line.split())`: collapse intra-line whitespace. -/
def normalizeLine (line : String) : String :=
  strJoin " " (pyWords line)

/-- `IngestionService._normalize_text`: normalize each line, drop empty lines,
join with newlines. -/
def normalizeText (text : String) : String :=
  strJoin "\n" (((splitLines text).map normalizeLine).filter (fun l => ¬ l = ""))

/-- `IngestionService._count_words`. -/
def countWords (text : String) : Nat :=
  if pyStrip text = "" then 0 else (pyWords text).length

/-- `IngestionService._create_text_blocks`: a single block for v0. -/
def createTextBlocks (text : String) : List TextBlock :=
  let normalized_text := normalizeText text
  [{ block_id := "block_0", order := 0, normalized_text := normalized_text,
     original_length := text.data.length,
     normalized_length := normalized_text.data.length,
     line_count := if normalized_text = "" then 1 else (splitLines normalized_text).length,
     word_count := countWords normalized_text }]

/-- `IngestionService.ingest`, with `datetime.utcnow()` supplied as the
explicit `now` parameter; empty-after-trim input raises `ValueError`. -/
def ingest (now : String) (input_data : IngestionInput) : Except String IngestionResult :=
  if pyStrip input_data.text = "" then Except.error "Text content cannot be empty"
  else
    let text_blocks := createTextBlocks input_data.text
    let total_characters := (text_blocks.map (·.normalized_length)).sum
    let total_words := (text_blocks.map (·.word_count)).sum
    let source_metadata_keys :=
      match input_data.metadata with
      | some m => if m.isEmpty then none else some (m.map (·.1))
      | none => none
    let metadata : IngestionMetadata :=
      { has_source_metadata := input_data.metadata.isSome,
        has_source_id := input_data.source_id.isSome,
        block_count := text_blocks.length,
        source_metadata_keys := source_metadata_keys }
    Except.ok { text_blocks := text_blocks, source_id := input_data.source_id,
                ingestion_timestamp := now, total_characters := total_characters,
                total_words := total_words, metadata := some metadata }

/-! ## Lemmas about the trap engine -/

theorem trapBlock_mem {u : Nat → String} {i : Nat} {trap_type severity1 : String}
    {m : List RiskSignal} {t : Trap} (h : t ∈ trapBlock u i trap_type severity1 m) :
    t.trap_type = trap_type ∧ t.related_signals = m ∧
      t.severity = (if 2 ≤ m.length then "high" else severity1) := by
  unfold trapBlock at h
  split_ifs at h with hm h2
  · cases h
  · rcases List.mem_singleton.mp h with rfl
    exact ⟨rfl, rfl, (if_pos h2).symm⟩
  · rcases List.mem_singleton.mp h with rfl
    exact ⟨rfl, rfl, (if_neg h2).symm⟩

theorem trapBlock_self_mem {u : Nat → String} {i : Nat} {trap_type severity1 : String}
    {m : List RiskSignal} (hm : ¬ m.isEmpty = true) :
    ∃ t ∈ trapBlock u i trap_type severity1 m, t.trap_type = trap_type := by
  unfold trapBlock
  rw [if_neg hm]
  exact ⟨_, List.mem_singleton_self _, rfl⟩

theorem matchedSignals_not_empty_iff (risk_signals : List RiskSignal)
    (types : List String) :
    (¬ (matchedSignals risk_signals types).isEmpty = true) ↔
      ∃ s ∈ risk_signals, s.type ∈ types := by
  rw [List.isEmpty_iff]
  unfold matchedSignals
  constructor
  · intro h
    obtain ⟨s, hs⟩ := List.exists_mem_of_ne_nil _ h
    have := List.mem_filter.mp hs
    exact ⟨s, this.1, by simpa using this.2⟩
  · rintro ⟨s, hs, hty⟩ hnil
    have : s ∈ List.filter (fun s => types.contains s.type) risk_signals :=
      List.mem_filter.mpr ⟨hs, by simpa using hty⟩
    rw [hnil] at this
    cases this

theorem mem_detectTraps_cases {u : Nat → String} {risk_signals : List RiskSignal}
    {t : Trap} (h : t ∈ detectTraps u risk_signals) :
    (∃ i, t ∈ trapBlock u i "temporal_lock" "low"
        (matchedSignals risk_signals temporalSignalTypes)) ∨
    (∃ i, t ∈ trapBlock u i "asymmetric_power" "medium"
        (matchedSignals risk_signals asymmetricSignalTypes)) ∨
    (∃ i, t ∈ trapBlock u i "exit_barrier" "medium"
        (matchedSignals risk_signals exitBarrierSignalTypes)) ∨
    (∃ i, t ∈ trapBlock u i "interpretation_ambiguity" "medium"
        (matchedSignals risk_signals interpretationSignalTypes)) := by
  simp only [detectTraps, List.mem_append] at h
  rcases h with ((h | h) | h) | h
  · exact Or.inl ⟨_, h⟩
  · exact Or.inr (Or.inl ⟨_, h⟩)
  · exact Or.inr (Or.inr (Or.inl ⟨_, h⟩))
  · exact Or.inr (Or.inr (Or.inr ⟨_, h⟩))

theorem detectTraps_mem_of_block_one {u : Nat → String} {risk_signals : List RiskSignal}
    {t : Trap} (h : t ∈ trapBlock u 0 "temporal_lock" "low"
      (matchedSignals risk_signals temporalSignalTypes)) :
    t ∈ detectTraps u risk_signals := by
  simp only [detectTraps, List.mem_append]
  exact Or.inl (Or.inl (Or.inl h))

theorem trapBlock_nonempty_of_mem {u : Nat → String} {i : Nat}
    {trap_type severity1 : String} {m : List RiskSignal} {t : Trap}
    (h : t ∈ trapBlock u i trap_type severity1 m) : ¬ m.isEmpty = true := by
  intro hm
  unfold trapBlock at h
  rw [if_pos hm] at h
  cases h

/-- The four detector blocks of `detectTraps`, with their uuid-stream indices. -/
def trapBlock1 (u : Nat → String) (sigs : List RiskSignal) : List Trap :=
  trapBlock u 0 "temporal_lock" "low" (matchedSignals sigs temporalSignalTypes)

/-- Second detector block of `detectTraps`. -/
def trapBlock2 (u : Nat → String) (sigs : List RiskSignal) : List Trap :=
  trapBlock u (trapBlock1 u sigs).length "asymmetric_power" "medium"
    (matchedSignals sigs asymmetricSignalTypes)

/-- Third detector block of `detectTraps`. -/
def trapBlock3 (u : Nat → String) (sigs : List RiskSignal) : List Trap :=
  trapBlock u ((trapBlock1 u sigs).length + (trapBlock2 u sigs).length)
    "exit_barrier" "medium" (matchedSignals sigs exitBarrierSignalTypes)

/-- Fourth detector block of `detectTraps`. -/
def trapBlock4 (u : Nat → String) (sigs : List RiskSignal) : List Trap :=
  trapBlock u ((trapBlock1 u sigs).length + (trapBlock2 u sigs).length +
    (trapBlock3 u sigs).length) "interpretation_ambiguity" "medium"
    (matchedSignals sigs interpretationSignalTypes)

theorem detectTraps_eq_blocks (u : Nat → String) (sigs : List RiskSignal) :
    detectTraps u sigs =
      trapBlock1 u sigs ++ trapBlock2 u sigs ++ trapBlock3 u sigs ++ trapBlock4 u sigs := rfl

/-- Which trap types can appear in `detectTraps` output, with their severity
rule: membership forces the trap to come from the detector of its type. -/
theorem detectTraps_type_spec {u : Nat → String} {risk_signals : List RiskSignal}
    {t : Trap} (h : t ∈ detectTraps u risk_signals)
    (trap_type severity1 : String) (types : List String)
    (hty : t.trap_type = trap_type)
    (hblocks :
      (trap_type = "temporal_lock" → types = temporalSignalTypes ∧ severity1 = "low") ∧
      (trap_type = "asymmetric_power" → types = asymmetricSignalTypes ∧ severity1 = "medium") ∧
      (trap_type = "exit_barrier" → types = exitBarrierSignalTypes ∧ severity1 = "medium") ∧
      (trap_type = "interpretation_ambiguity" →
        types = interpretationSignalTypes ∧ severity1 = "medium"))
    (hone : trap_type = "temporal_lock" ∨ trap_type = "asymmetric_power" ∨
      trap_type = "exit_barrier" ∨ trap_type = "interpretation_ambiguity") :
    t.related_signals = matchedSignals risk_signals types ∧
      t.severity =
        (if 2 ≤ (matchedSignals risk_signals types).length then "high" else severity1) := by
  rcases mem_detectTraps_cases h with ⟨i, hb⟩ | ⟨i, hb⟩ | ⟨i, hb⟩ | ⟨i, hb⟩ <;>
    obtain ⟨h1, h2, h3⟩ := trapBlock_mem hb <;>
    rcases hone with rfl | rfl | rfl | rfl <;>
    first
      | (exact absurd (hty.symm.trans h1) (by decide))
      | (obtain ⟨rfl, rfl⟩ := by
            first
              | exact hblocks.1 rfl
              | exact hblocks.2.1 rfl
              | exact hblocks.2.2.1 rfl
              | exact hblocks.2.2.2 rfl
         exact ⟨h2, h3⟩)

/-! ## Claim C2 — trap detection and severity -/

/-- **C2.** Each of the four trap detectors emits its trap iff at least one of
its three defining signal types is present; severity is determined purely by the
count of matching signals (1 match: `"low"` for `temporal_lock` and `"medium"`
for the other three; 2 or more: `"high"`, independently of which signals
matched); when none of the four defining sets is matched, zero traps are
returned. -/
theorem detectTraps_characterization :
    ∀ (uuids : Nat → String) (risk_signals : List RiskSignal),
      ((∃ t ∈ detectTraps uuids risk_signals, t.trap_type = "temporal_lock") ↔
        ∃ s ∈ risk_signals, s.type ∈ temporalSignalTypes) ∧
      ((∃ t ∈ detectTraps uuids risk_signals, t.trap_type = "asymmetric_power") ↔
        ∃ s ∈ risk_signals, s.type ∈ asymmetricSignalTypes) ∧
      ((∃ t ∈ detectTraps uuids risk_signals, t.trap_type = "exit_barrier") ↔
        ∃ s ∈ risk_signals, s.type ∈ exitBarrierSignalTypes) ∧
      ((∃ t ∈ detectTraps uuids risk_signals, t.trap_type = "interpretation_ambiguity") ↔
        ∃ s ∈ risk_signals, s.type ∈ interpretationSignalTypes) ∧
      (∀ t ∈ detectTraps uuids risk_signals,
        (t.trap_type = "temporal_lock" →
          t.related_signals = matchedSignals risk_signals temporalSignalTypes ∧
          ((matchedSignals risk_signals temporalSignalTypes).length = 1 →
            t.severity = "low") ∧
          (2 ≤ (matchedSignals risk_signals temporalSignalTypes).length →
            t.severity = "high")) ∧
        (t.trap_type = "asymmetric_power" →
          t.related_signals = matchedSignals risk_signals asymmetricSignalTypes ∧
          ((matchedSignals risk_signals asymmetricSignalTypes).length = 1 →
            t.severity = "medium") ∧
          (2 ≤ (matchedSignals risk_signals asymmetricSignalTypes).length →
            t.severity = "high")) ∧
        (t.trap_type = "exit_barrier" →
          t.related_signals = matchedSignals risk_signals exitBarrierSignalTypes ∧
          ((matchedSignals risk_signals exitBarrierSignalTypes).length = 1 →
            t.severity = "medium") ∧
          (2 ≤ (matchedSignals risk_signals exitBarrierSignalTypes).length →
            t.severity = "high")) ∧
        (t.trap_type = "interpretation_ambiguity" →
          t.related_signals = matchedSignals risk_signals interpretationSignalTypes ∧
          ((matchedSignals risk_signals interpretationSignalTypes).length = 1 →
            t.severity = "medium") ∧
          (2 ≤ (matchedSignals risk_signals interpretationSignalTypes).length →
            t.severity = "high"))) ∧
      ((∀ s ∈ risk_signals, s.type ∉ temporalSignalTypes ∧
          s.type ∉ asymmetricSignalTypes ∧ s.type ∉ exitBarrierSignalTypes ∧
          s.type ∉ interpretationSignalTypes) →
        detectTraps uuids risk_signals = []) := by
  intro uuids risk_signals
  refine ⟨?_, ?_, ?_, ?_, ?_, ?_⟩
  · constructor
    · rintro ⟨t, ht, hty⟩
      rcases mem_detectTraps_cases ht with ⟨i, hb⟩ | ⟨i, hb⟩ | ⟨i, hb⟩ | ⟨i, hb⟩ <;>
        have h1 := (trapBlock_mem hb).1
      · exact (matchedSignals_not_empty_iff _ _).mp (trapBlock_nonempty_of_mem hb)
      · exact absurd (hty.symm.trans h1) (by decide)
      · exact absurd (hty.symm.trans h1) (by decide)
      · exact absurd (hty.symm.trans h1) (by decide)
    · intro hsig
      have hne := (matchedSignals_not_empty_iff risk_signals temporalSignalTypes).mpr hsig
      obtain ⟨t, htm, htt⟩ :=
        @trapBlock_self_mem uuids 0 "temporal_lock" "low" _ hne
      refine ⟨t, ?_, htt⟩
      rw [detectTraps_eq_blocks]
      exact List.mem_append_left _ (List.mem_append_left _ (List.mem_append_left _ htm))
  · constructor
    · rintro ⟨t, ht, hty⟩
      rcases mem_detectTraps_cases ht with ⟨i, hb⟩ | ⟨i, hb⟩ | ⟨i, hb⟩ | ⟨i, hb⟩ <;>
        have h1 := (trapBlock_mem hb).1
      · exact absurd (hty.symm.trans h1) (by decide)
      · exact (matchedSignals_not_empty_iff _ _).mp (trapBlock_nonempty_of_mem hb)
      · exact absurd (hty.symm.trans h1) (by decide)
      · exact absurd (hty.symm.trans h1) (by decide)
    · intro hsig
      have hne := (matchedSignals_not_empty_iff risk_signals asymmetricSignalTypes).mpr hsig
      obtain ⟨t, htm, htt⟩ := @trapBlock_self_mem uuids
        (trapBlock1 uuids risk_signals).length "asymmetric_power" "medium" _ hne
      refine ⟨t, ?_, htt⟩
      rw [detectTraps_eq_blocks]
      exact List.mem_append_left _ (List.mem_append_left _ (List.mem_append_right _ htm))
  · constructor
    · rintro ⟨t, ht, hty⟩
      rcases mem_detectTraps_cases ht with ⟨i, hb⟩ | ⟨i, hb⟩ | ⟨i, hb⟩ | ⟨i, hb⟩ <;>
        have h1 := (trapBlock_mem hb).1
      · exact absurd (hty.symm.trans h1) (by decide)
      · exact absurd (hty.symm.trans h1) (by decide)
      · exact (matchedSignals_not_empty_iff _ _).mp (trapBlock_nonempty_of_mem hb)
      · exact absurd (hty.symm.trans h1) (by decide)
    · intro hsig
      have hne := (matchedSignals_not_empty_iff risk_signals exitBarrierSignalTypes).mpr hsig
      obtain ⟨t, htm, htt⟩ := @trapBlock_self_mem uuids
        ((trapBlock1 uuids risk_signals).length + (trapBlock2 uuids risk_signals).length)
        "exit_barrier" "medium" _ hne
      refine ⟨t, ?_, htt⟩
      rw [detectTraps_eq_blocks]
      exact List.mem_append_left _ (List.mem_append_right _ htm)
  · constructor
    · rintro ⟨t, ht, hty⟩
      rcases mem_detectTraps_cases ht with ⟨i, hb⟩ | ⟨i, hb⟩ | ⟨i, hb⟩ | ⟨i, hb⟩ <;>
        have h1 := (trapBlock_mem hb).1
      · exact absurd (hty.symm.trans h1) (by decide)
      · exact absurd (hty.symm.trans h1) (by decide)
      · exact absurd (hty.symm.trans h1) (by decide)
      · exact (matchedSignals_not_empty_iff _ _).mp (trapBlock_nonempty_of_mem hb)
    · intro hsig
      have hne := (matchedSignals_not_empty_iff risk_signals interpretationSignalTypes).mpr hsig
      obtain ⟨t, htm, htt⟩ := @trapBlock_self_mem uuids
        ((trapBlock1 uuids risk_signals).length + (trapBlock2 uuids risk_signals).length +
          (trapBlock3 uuids risk_signals).length)
        "interpretation_ambiguity" "medium" _ hne
      refine ⟨t, ?_, htt⟩
      rw [detectTraps_eq_blocks]
      exact List.mem_append_right _ htm
  · intro t ht
    refine ⟨fun hty => ?_, fun hty => ?_, fun hty => ?_, fun hty => ?_⟩
    · obtain ⟨hrel, hsev⟩ := detectTraps_type_spec ht "temporal_lock" "low"
        temporalSignalTypes hty
        ⟨fun _ => ⟨rfl, rfl⟩, fun hh => absurd hh (by decide),
         fun hh => absurd hh (by decide), fun hh => absurd hh (by decide)⟩
        (Or.inl rfl)
      refine ⟨hrel, fun h1 => ?_, fun h2 => ?_⟩
      · rw [hsev, if_neg (by omega)]
      · rw [hsev, if_pos h2]
    · obtain ⟨hrel, hsev⟩ := detectTraps_type_spec ht "asymmetric_power" "medium"
        asymmetricSignalTypes hty
        ⟨fun hh => absurd hh (by decide), fun _ => ⟨rfl, rfl⟩,
         fun hh => absurd hh (by decide), fun hh => absurd hh (by decide)⟩
        (Or.inr (Or.inl rfl))
      refine ⟨hrel, fun h1 => ?_, fun h2 => ?_⟩
      · rw [hsev, if_neg (by omega)]
      · rw [hsev, if_pos h2]
    · obtain ⟨hrel, hsev⟩ := detectTraps_type_spec ht "exit_barrier" "medium"
        exitBarrierSignalTypes hty
        ⟨fun hh => absurd hh (by decide), fun hh => absurd hh (by decide),
         fun _ => ⟨rfl, rfl⟩, fun hh => absurd hh (by decide)⟩
        (Or.inr (Or.inr (Or.inl rfl)))
      refine ⟨hrel, fun h1 => ?_, fun h2 => ?_⟩
      · rw [hsev, if_neg (by omega)]
      · rw [hsev, if_pos h2]
    · obtain ⟨hrel, hsev⟩ := detectTraps_type_spec ht "interpretation_ambiguity" "medium"
        interpretationSignalTypes hty
        ⟨fun hh => absurd hh (by decide), fun hh => absurd hh (by decide),
         fun hh => absurd hh (by decide), fun _ => ⟨rfl, rfl⟩⟩
        (Or.inr (Or.inr (Or.inr rfl)))
      refine ⟨hrel, fun h1 => ?_, fun h2 => ?_⟩
      · rw [hsev, if_neg (by omega)]
      · rw [hsev, if_pos h2]
  · intro hnone
    have hempty : ∀ types : List String, (∀ s ∈ risk_signals, s.type ∉ types) →
        (matchedSignals risk_signals types).isEmpty = true := by
      intro types htypes
      rw [List.isEmpty_iff]
      unfold matchedSignals
      rw [List.filter_eq_nil_iff]
      intro s hs
      simpa using htypes s hs
    have h1 := hempty temporalSignalTypes (fun s hs => (hnone s hs).1)
    have h2 := hempty asymmetricSignalTypes (fun s hs => (hnone s hs).2.1)
    have h3 := hempty exitBarrierSignalTypes (fun s hs => (hnone s hs).2.2.1)
    have h4 := hempty interpretationSignalTypes (fun s hs => (hnone s hs).2.2.2)
    simp [detectTraps, trapBlock, h1, h2, h3, h4]

/-- Concrete uuid stream for the C2 witness. -/
def witnessUuids : Nat → String := fun _ => "0123456789abcdef"

/-- Concrete categorical signals for the C2 witness: two temporal-lock signals
and one asymmetric-power signal. -/
def witnessTrapSignals : List RiskSignal :=
  [{ type := "AUTO_RENEWAL", confidence := "high" },
   { type := "SHORT_NOTICE_WINDOW", confidence := "medium" },
   { type := "UNILATERAL_MODIFICATION", confidence := "high" }]

/-- Witness for C2 at a concrete signal list: the temporal-lock trap is emitted
with severity high (two matches), and the asymmetric-power trap with severity
medium (one match). -/
theorem detectTraps_characterization_witness :
    (∃ t ∈ detectTraps witnessUuids witnessTrapSignals, t.trap_type = "temporal_lock") ∧
    (∀ t ∈ detectTraps witnessUuids witnessTrapSignals, t.trap_type = "temporal_lock" →
      t.severity = "high") ∧
    (∀ t ∈ detectTraps witnessUuids witnessTrapSignals, t.trap_type = "asymmetric_power" →
      t.severity = "medium") := by
  have h := detectTraps_characterization witnessUuids witnessTrapSignals
  refine ⟨h.1.mpr ⟨{ type := "AUTO_RENEWAL", confidence := "high" }, by decide, by decide⟩,
    ?_, ?_⟩
  · intro t ht hty
    exact ((h.2.2.2.2.1 t ht).1 hty).2.2 (by decide)
  · intro t ht hty
    exact ((h.2.2.2.2.1 t ht).2.1 hty).2.1 (by decide)

/-! ## Claim C7 — determinism -/

/-- Uuid stream drawing only `a` digits. -/
def uuidStreamA : Nat → String := fun _ => "aaaaaaaaaaaaaaaa"

/-- Uuid stream drawing only `b` digits. -/
def uuidStreamB : Nat → String := fun _ => "bbbbbbbbbbbbbbbb"

/-- A single auto-renewal signal. -/
def renewalSignal : RiskSignal := { type := "AUTO_RENEWAL", confidence := "high" }

/-- **C7, counterexample.** Running `detect_traps` twice on the same typed input
yields different `trap_id`s when the process draws different uuids, and running
`ingest` twice on the same input yields different `ingestion_timestamp`s when
the wall clock has moved: the stages are not deterministic in all fields. -/
theorem detectTraps_and_ingest_fresh_fields_differ :
    ((detectTraps uuidStreamA [renewalSignal]).map (·.trap_id)) ≠
      ((detectTraps uuidStreamB [renewalSignal]).map (·.trap_id)) ∧
    ((ingest "2024-01-01T00:00:00" { text := "Hello world" }).toOption.map
        (·.ingestion_timestamp)) ≠
      ((ingest "2024-01-02T00:00:00" { text := "Hello world" }).toOption.map
        (·.ingestion_timestamp)) := by
  decide

/-- A trap with its fresh `trap_id` erased. -/
def stripTrapId (t : Trap) : String × List RiskSignal × String :=
  (t.trap_type, t.related_signals, t.severity)

/-- A risk chain with its fresh `chain_id` erased. -/
def stripChainId (c : RiskChain) : String × List RiskStep × String :=
  (c.trap_id, c.steps, c.final_outcome)

/-- An ingestion result with its wall-clock timestamp erased. -/
def stripTimestamp (r : IngestionResult) : IngestionResult :=
  { r with ingestion_timestamp := "" }

theorem trapBlock_strip (u : Nat → String) (i : Nat) (trap_type severity1 : String)
    (m : List RiskSignal) :
    (trapBlock u i trap_type severity1 m).map stripTrapId =
      if m.isEmpty then []
      else [(trap_type, m, if 2 ≤ m.length then "high" else severity1)] := by
  unfold trapBlock
  split_ifs <;> simp [stripTrapId]

theorem buildChainsAux_strip (u u' : Nat → String) (traps : List Trap) :
    ∀ k k', (buildChainsAux u k traps).map stripChainId =
      (buildChainsAux u' k' traps).map stripChainId := by
  induction traps with
  | nil => intro k k'; rfl
  | cons trap rest ih =>
    intro k k'
    unfold buildChainsAux buildChainFor
    split_ifs <;> simp [stripChainId] <;> exact ih _ _

/-- **C7, amended.** Every pipeline stage is deterministic in all content
fields, but not in the freshly generated fields: `trap_id`s and `chain_id`s come
from `uuid.uuid4()` and `ingestion_timestamp` from `datetime.utcnow()`. With
those fields erased, running a stage twice on equal typed inputs yields equal
outputs, whatever the uuid streams or clock readings of the two runs. -/
theorem pipeline_deterministic_up_to_fresh_fields :
    (∀ (u u' : Nat → String) (risk_signals : List RiskSignal),
      (detectTraps u risk_signals).map stripTrapId =
        (detectTraps u' risk_signals).map stripTrapId) ∧
    (∀ (u u' : Nat → String) (traps : List Trap),
      (buildChains u traps).map stripChainId =
        (buildChains u' traps).map stripChainId) ∧
    (∀ (now now' : String) (input : IngestionInput),
      (ingest now input).map stripTimestamp =
        (ingest now' input).map stripTimestamp) := by
  refine ⟨?_, ?_, ?_⟩
  · intro u u' risk_signals
    simp only [detectTraps, List.map_append, trapBlock_strip]
  · intro u u' traps
    exact buildChainsAux_strip u u' traps 0 0
  · intro now now' input
    unfold ingest
    split_ifs <;> rfl

/-! ## Explanation Service v0 (backend/layers/explain/explain_service.py) -/

/-- One entry of the v0 `risk_explanations` template table. -/
structure V0Template where
  title : String
  message : String
  user_action : String
deriving DecidableEq, Repr

/-- The loaded `risk_explanations` dictionary (`risk_code → template`); the
table's `overall_messages` part is only validated at load time and never read
by `explain`. -/
abbrev V0Templates := List (String × V0Template)

/-- `ExplanationBlock`. -/
structure ExplanationBlock where
  title : String
  message : String
  user_action : String
  severity : String
  risk_code : String
deriving DecidableEq, Repr

/-- `ExplanationOutput` (v0). -/
structure ExplanationOutput where
  overall_message : String
  explanation_blocks : List ExplanationBlock
deriving DecidableEq, Repr

/-- The fixed neutral overall message hard-coded in `ExplainService.explain`. -/
def neutralOverallMessage : String :=
  "我们发现了一些需要您注意的条款。请查看以下详细信息。"

/-- `ExplainService.explain`: fixed neutral overall message; one block per risk
item whose risk code has a template (unknown codes are skipped); block severity
hard-coded to `"low"`. Reads only `analysis_output.risk_items`. -/
def ExplainService.explain (risk_explanations : V0Templates)
    (analysis_output : AnalysisOutput) : ExplanationOutput :=
  { overall_message := neutralOverallMessage,
    explanation_blocks :=
      analysis_output.risk_items.filterMap fun risk_item =>
        (risk_explanations.lookup risk_item.risk_code).map fun t =>
          { title := t.title, message := t.message, user_action := t.user_action,
            severity := "low", risk_code := risk_item.risk_code } }

/-! ## Explanation Service v1 output model -/

/-- `RiskFieldExplanation` (v1). -/
structure RiskFieldExplanation where
  axis : RiskAxis
  intensity : String
  affected_party : String
  title : String
  message : String
  user_action : String
  compounding : Bool
  source_blocks : List String
deriving DecidableEq, Repr

/-- `ExplanationOutputV1`. -/
structure ExplanationOutputV1 where
  risk_field_explanations : List RiskFieldExplanation
deriving DecidableEq, Repr

/-! ## Explanation Service v2 (backend/layers/explain/explain_v2_service.py) -/

/-- `TrapType` enum of the v2 contract. -/
inductive TrapType where
  | temporalLockIn
  | asymmetricPower
  | exitBarrier
  | ambiguity
deriving DecidableEq, Repr

/-- String value of a `TrapType`. -/
def TrapType.value : TrapType → String
  | .temporalLockIn => "Temporal Lock-in"
  | .asymmetricPower => "Asymmetric Power"
  | .exitBarrier => "Exit Barrier"
  | .ambiguity => "Ambiguity"

/-- `Strength` enum. -/
inductive Strength where
  | low
  | medium
  | high
deriving DecidableEq, Repr

/-- `Beneficiary` enum. -/
inductive Beneficiary where
  | provider
  | counterparty
deriving DecidableEq, Repr

/-- `Irreversibility` enum. -/
inductive Irreversibility where
  | reversible
  | partiallyReversible
  | irreversible
deriving DecidableEq, Repr

/-- `ConfidenceLevel` enum. -/
inductive ConfidenceLevel where
  | high
  | medium
  | low
deriving DecidableEq, Repr

/-- String value of a `ConfidenceLevel`. -/
def ConfidenceLevel.value : ConfidenceLevel → String
  | .high => "high"
  | .medium => "medium"
  | .low => "low"

/-- `LockInDynamics`. -/
structure LockInDynamics where
  description : String
deriving DecidableEq, Repr

/-- `ExplainV2Input` (evidence and window dicts as association lists;
`cost_bearer` is the literal `"user"`). -/
structure ExplainV2Input where
  trap_type : TrapType
  strength : Strength
  beneficiary : Beneficiary
  cost_bearer : String
  irreversibility : Irreversibility
  evidence : List (String × String)
  window : List (String × String)
deriving DecidableEq, Repr

/-- `ExplainV2Output`. -/
structure ExplainV2Output where
  mechanism : TrapType
  headline : String
  core_logic : String
  power_map : String
  irreversibility : Irreversibility
  lock_in_dynamics : Option LockInDynamics := none
  escape_window : List (String × String)
  user_actions : List String
  confidence_level : ConfidenceLevel
deriving DecidableEq, Repr

/-- `ExplainV2Service._explain_temporal_lock_in` (all strength branches of the
source produce the same headline/core-logic/dynamics strings; they are kept as
matches to mirror the code). -/
def explainTemporalLockIn (input_data : ExplainV2Input) : ExplainV2Output :=
  let strength := input_data.strength
  let headline :=
    match strength with
    | .high => "如果错过了特定的时间点，后续想要退出的话，成本可能会增加。"
    | .medium => "如果错过了特定的时间点，后续想要退出的话，成本可能会增加。"
    | .low => "如果错过了特定的时间点，后续想要退出的话，成本可能会增加。"
  let core_logic :=
    match strength with
    | .high => "如果错过了某个时间窗口，合同会自动延续，到那时再取消的话，需要付出的代价可能会比现在高一些。"
    | .medium => "如果错过了某个时间窗口，合同会自动延续，到那时再取消的话，需要付出的代价可能会比现在高一些。"
    | .low => "如果错过了某个时间窗口，合同会自动延续，到那时再取消的话，需要付出的代价可能会比现在高一些。"
  let power_map :=
    match input_data.beneficiary with
    | .provider => "服务提供方可以在特定时间自动延续合同，而如果错过了取消的时间，后续成本通常需要由用户承担。"
    | .counterparty => "对方可以在特定时间自动延续合同，而如果错过了取消的时间，后续成本通常需要由用户承担。"
  let lock_in_dynamics_desc :=
    match strength with
    | .high => "一旦过了可以取消的时间点，合同会自动继续，之后想要退出的话，付出的代价可能会比现在更高。"
    | .medium => "一旦过了可以取消的时间点，合同会自动继续，之后想要退出的话，付出的代价可能会比现在更高。"
    | .low => "一旦过了可以取消的时间点，合同会自动继续，之后想要退出的话，付出的代价可能会比现在更高。"
  let user_actions :=
    match strength with
    | .high => ["记下需要做出决定的截止日期，并设置提醒",
                "在截止日期前考虑是否要继续",
                "先了解一下，如果错过取消窗口，后续退出的成本可能会是多少"]
    | .medium => ["记下需要做出决定的截止日期，并设置提醒",
                  "在截止日期前考虑是否要继续"]
    | .low => ["记下需要做出决定的截止日期，并设置提醒"]
  let confidence_level :=
    match strength with
    | .high => ConfidenceLevel.high
    | .medium => ConfidenceLevel.medium
    | .low => ConfidenceLevel.low
  { mechanism := input_data.trap_type,
    headline := headline,
    core_logic := core_logic,
    power_map := power_map,
    irreversibility := input_data.irreversibility,
    lock_in_dynamics := some { description := lock_in_dynamics_desc },
    escape_window := input_data.window,
    user_actions := user_actions,
    confidence_level := confidence_level }

/-- `ExplainV2Service.explain`: fail fast (raise `ValueError`) unless the trap
type is Temporal Lock-in, the only supported mechanism. -/
def ExplainV2Service.explain (input_data : ExplainV2Input) :
    Except String ExplainV2Output :=
  if input_data.trap_type ≠ TrapType.temporalLockIn then
    Except.error ("Explain v2 currently only supports Temporal Lock-in. Received: " ++
      input_data.trap_type.value)
  else
    Except.ok (explainTemporalLockIn input_data)

/-! ## Aggregation Gateway (backend/layers/explain/explain_gateway.py) -/

/-- The overview dictionary built by `_build_overview`. -/
structure Overview where
  attention_level : String
  summary : String
deriving DecidableEq, Repr

/-- The highest of a list of levels under the precedence high > medium > low
(the `if "high" in ... elif "medium" in ...` pattern of `_build_overview`,
starting from `"low"`). -/
def highestIn (levels : List String) : String :=
  if levels.contains "high" then "high"
  else if levels.contains "medium" then "medium"
  else "low"

/-- The v0 fallback branch for `attention_level`: the highest v0 block severity
when v0 is present with blocks, `"low"` otherwise. -/
def v0AttentionLevel : Option ExplanationOutput → String
  | some o =>
    if o.explanation_blocks.isEmpty then "low"
    else highestIn (o.explanation_blocks.map (·.severity))
  | none => "low"

/-- The v0 fallback branch for `summary`: the v0 overall message when v0 is
present, `""` otherwise. -/
def v0Summary : Option ExplanationOutput → String
  | some o => o.overall_message
  | none => ""

/-- `ExplainGateway._build_overview`. -/
def buildOverview (explain_v0_output : Option ExplanationOutput)
    (explain_v1_output : Option ExplanationOutputV1)
    (explain_v2_output : Option ExplainV2Output) : Overview :=
  let attention_level :=
    match explain_v2_output with
    | some o => o.confidence_level.value
    | none =>
      match explain_v1_output with
      | some o1 =>
        match o1.risk_field_explanations with
        | [] => v0AttentionLevel explain_v0_output
        | exps => highestIn (exps.map (·.intensity))
      | none => v0AttentionLevel explain_v0_output
  let summary :=
    match explain_v2_output with
    | some o => o.headline
    | none =>
      match explain_v1_output with
      | some o1 =>
        match o1.risk_field_explanations with
        | [] => v0Summary explain_v0_output
        | e :: _ => e.title
      | none => v0Summary explain_v0_output
  { attention_level := attention_level, summary := summary }

/-- The gateway's v2 key-findings entry, as an association list. -/
def v2Finding (o : ExplainV2Output) : List (String × String) :=
  [("source", "v2"), ("headline", o.headline), ("core_logic", o.core_logic),
   ("power_map", o.power_map), ("mechanism", o.mechanism.value)]

/-- The gateway's v1 key-findings entry. -/
def v1Finding (e : RiskFieldExplanation) : List (String × String) :=
  [("source", "v1"), ("title", e.title), ("message", e.message),
   ("axis", e.axis.value), ("intensity", e.intensity),
   ("affected_party", e.affected_party)]

/-- The gateway's v0 key-findings entry. -/
def v0Finding (b : ExplanationBlock) : List (String × String) :=
  [("source", "v0"), ("title", b.title), ("message", b.message),
   ("severity", b.severity), ("risk_code", b.risk_code)]

/-- The `source` tag of a gateway entry. -/
def entrySource (e : List (String × String)) : String :=
  (e.lookup "source").getD ""

/-- `ExplainGateway._build_key_findings`: the v2 entry (if any), then the first
2 v1 entries, then v0 entries filling the remaining slots up to a total of 4. -/
def buildKeyFindings (explain_v0_output : Option ExplanationOutput)
    (explain_v1_output : Option ExplanationOutputV1)
    (explain_v2_output : Option ExplainV2Output) : List (List (String × String)) :=
  let key_findings : List (List (String × String)) :=
    match explain_v2_output with
    | some o => [v2Finding o]
    | none => []
  let key_findings := key_findings ++
    (match explain_v1_output with
     | some o => (o.risk_field_explanations.take 2).map v1Finding
     | none => [])
  let key_findings := key_findings ++
    (match explain_v0_output with
     | some o => (o.explanation_blocks.take (4 - key_findings.length)).map v0Finding
     | none => [])
  key_findings

/-- The deny-list of `_build_next_actions`. -/
def filterKeywords : List String :=
  ["法律建议", "拒绝签署", "寻求法律建议", "legal advice", "refuse to sign",
   "seek legal", "consult a lawyer", "拒绝", "建议寻求"]

/-- `should_filter`: the action text contains some deny-list phrase,
case-insensitively. -/
def shouldFilter (action_text : String) : Bool :=
  filterKeywords.any fun keyword =>
    strContains (strLower action_text) (strLower keyword)

/-- The gateway's v2 next-action entry. -/
def v2Action (o : ExplainV2Output) (action : String) : List (String × String) :=
  [("source", "v2"), ("action", action), ("mechanism", o.mechanism.value)]

/-- The gateway's v1 next-action entry. -/
def v1Action (e : RiskFieldExplanation) : List (String × String) :=
  [("source", "v1"), ("action", e.user_action), ("axis", e.axis.value)]

/-- The gateway's v0 next-action entry. -/
def v0Action (b : ExplanationBlock) : List (String × String) :=
  [("source", "v0"), ("action", b.user_action), ("risk_code", b.risk_code)]

/-- The `action` text of a gateway next-action entry. -/
def actionText (e : List (String × String)) : String :=
  (e.lookup "action").getD ""

/-- One tier's loop of `_build_next_actions`: append each non-filtered
candidate, stopping as soon as the list reaches 2 entries. -/
def collectActions (next_actions : List (List (String × String))) :
    List (List (String × String)) → List (List (String × String))
  | [] => next_actions
  | e :: rest =>
    if shouldFilter (actionText e) then collectActions next_actions rest
    else
      let next_actions := next_actions ++ [e]
      if 2 ≤ next_actions.length then next_actions
      else collectActions next_actions rest

/-- `ExplainGateway._build_next_actions`. -/
def buildNextActions (explain_v0_output : Option ExplanationOutput)
    (explain_v1_output : Option ExplanationOutputV1)
    (explain_v2_output : Option ExplainV2Output) : List (List (String × String)) :=
  let next_actions : List (List (String × String)) := []
  let next_actions :=
    match explain_v2_output with
    | some o => collectActions next_actions (o.user_actions.map (v2Action o))
    | none => next_actions
  let next_actions :=
    match explain_v1_output with
    | some o =>
      if next_actions.length < 2 then
        collectActions next_actions (o.risk_field_explanations.map v1Action)
      else next_actions
    | none => next_actions
  let next_actions :=
    match explain_v0_output with
    | some o =>
      if next_actions.length < 2 then
        collectActions next_actions (o.explanation_blocks.map v0Action)
      else next_actions
    | none => next_actions
  next_actions

/-- The full tier-ordered candidate list of `_build_next_actions` (spec-side
description: v2 actions, then v1 actions, then v0 actions, as tagged entries). -/
def nextActionCandidates (explain_v0_output : Option ExplanationOutput)
    (explain_v1_output : Option ExplanationOutputV1)
    (explain_v2_output : Option ExplainV2Output) : List (List (String × String)) :=
  (match explain_v2_output with
   | some o => o.user_actions.map (v2Action o)
   | none => []) ++
  (match explain_v1_output with
   | some o => o.risk_field_explanations.map v1Action
   | none => []) ++
  (match explain_v0_output with
   | some o => o.explanation_blocks.map v0Action
   | none => [])

/-! ## Gateway lemmas -/

theorem entrySource_v2Finding (o : ExplainV2Output) : entrySource (v2Finding o) = "v2" := rfl

theorem entrySource_v1Finding (e : RiskFieldExplanation) : entrySource (v1Finding e) = "v1" := rfl

theorem entrySource_v0Finding (b : ExplanationBlock) : entrySource (v0Finding b) = "v0" := rfl

theorem entrySource_v2Action (o : ExplainV2Output) (a : String) :
    entrySource (v2Action o a) = "v2" := rfl

theorem entrySource_v1Action (e : RiskFieldExplanation) : entrySource (v1Action e) = "v1" := rfl

theorem entrySource_v0Action (b : ExplanationBlock) : entrySource (v0Action b) = "v0" := rfl

/-- The v2 part of `buildKeyFindings`. -/
def v2Part : Option ExplainV2Output → List (List (String × String))
  | some o => [v2Finding o]
  | none => []

/-- The v1 part of `buildKeyFindings`. -/
def v1Part : Option ExplanationOutputV1 → List (List (String × String))
  | some o => (o.risk_field_explanations.take 2).map v1Finding
  | none => []

/-- The v0 part of `buildKeyFindings`, given the number of slots already used. -/
def v0Part : Option ExplanationOutput → Nat → List (List (String × String))
  | some o, used => (o.explanation_blocks.take (4 - used)).map v0Finding
  | none, _ => []

theorem buildKeyFindings_eq (v0 : Option ExplanationOutput)
    (v1 : Option ExplanationOutputV1) (v2 : Option ExplainV2Output) :
    buildKeyFindings v0 v1 v2 =
      v2Part v2 ++ v1Part v1 ++ v0Part v0 (v2Part v2 ++ v1Part v1).length := by
  cases v2 <;> cases v1 <;> cases v0 <;> rfl

theorem filter_source_of_all (l : List (List (String × String))) (src tag : String)
    (h : ∀ e ∈ l, entrySource e = tag) :
    l.filter (fun e => entrySource e = src) = if tag = src then l else [] := by
  split_ifs with hts
  · refine List.filter_eq_self.mpr fun e he => ?_
    simp [h e he, hts]
  · refine List.filter_eq_nil_iff.mpr fun e he => ?_
    simp [h e he, hts]

theorem source_partition (L : List (List (String × String)))
    (A B C : List (List (String × String))) (hL : L = A ++ B ++ C)
    (hA : ∀ e ∈ A, entrySource e = "v2") (hB : ∀ e ∈ B, entrySource e = "v1")
    (hC : ∀ e ∈ C, entrySource e = "v0") :
    L = (L.filter (fun e => entrySource e = "v2")) ++
      (L.filter (fun e => entrySource e = "v1")) ++
      (L.filter (fun e => entrySource e = "v0")) := by
  subst hL
  simp only [List.filter_append]
  rw [filter_source_of_all A "v2" "v2" hA, filter_source_of_all B "v2" "v1" hB,
    filter_source_of_all C "v2" "v0" hC, filter_source_of_all A "v1" "v2" hA,
    filter_source_of_all B "v1" "v1" hB, filter_source_of_all C "v1" "v0" hC,
    filter_source_of_all A "v0" "v2" hA, filter_source_of_all B "v0" "v1" hB,
    filter_source_of_all C "v0" "v0" hC]
  simp

theorem v2Part_all (v2 : Option ExplainV2Output) :
    ∀ e ∈ v2Part v2, entrySource e = "v2" := by
  cases v2 <;> simp [v2Part, entrySource_v2Finding]

theorem v1Part_all (v1 : Option ExplanationOutputV1) :
    ∀ e ∈ v1Part v1, entrySource e = "v1" := by
  cases v1 with
  | none => simp [v1Part]
  | some o =>
    intro e he
    obtain ⟨x, -, rfl⟩ := List.mem_map.mp he
    exact entrySource_v1Finding x

theorem v0Part_all (v0 : Option ExplanationOutput) (used : Nat) :
    ∀ e ∈ v0Part v0 used, entrySource e = "v0" := by
  cases v0 with
  | none => simp [v0Part]
  | some o =>
    intro e he
    obtain ⟨x, -, rfl⟩ := List.mem_map.mp he
    exact entrySource_v0Finding x

/-! ## Claim C3 — key findings -/

/-- **C3.** `key_findings` holds at most 4 entries: the v2 entry first when v2
is present, then at most the first 2 v1 entries in input order, then v0 entries
filling the remaining slots, in strict v2 → v1 → v0 order; in the particular
mix of a v2 output, a v1 output with 3 field explanations and a v0 output with
2 blocks, it has exactly 4 entries with sources v2, v1, v1, v0. -/
theorem keyFindings_priority_and_caps :
    ∀ (v0 : Option ExplanationOutput) (v1 : Option ExplanationOutputV1)
      (v2 : Option ExplainV2Output),
      (buildKeyFindings v0 v1 v2).length ≤ 4 ∧
      (∀ o2, v2 = some o2 → (buildKeyFindings v0 v1 v2).head? = some (v2Finding o2)) ∧
      ((buildKeyFindings v0 v1 v2).filter (fun e => entrySource e = "v1")) = v1Part v1 ∧
      buildKeyFindings v0 v1 v2 =
        ((buildKeyFindings v0 v1 v2).filter (fun e => entrySource e = "v2")) ++
        ((buildKeyFindings v0 v1 v2).filter (fun e => entrySource e = "v1")) ++
        ((buildKeyFindings v0 v1 v2).filter (fun e => entrySource e = "v0")) ∧
      (∀ o2 o1 o0, v2 = some o2 → v1 = some o1 → v0 = some o0 →
        o1.risk_field_explanations.length = 3 → o0.explanation_blocks.length = 2 →
        (buildKeyFindings v0 v1 v2).length = 4 ∧
        (buildKeyFindings v0 v1 v2).map (fun e => entrySource e) =
          ["v2", "v1", "v1", "v0"]) := by
  intro v0 v1 v2
  refine ⟨?_, ?_, ?_, ?_, ?_⟩
  · rw [buildKeyFindings_eq]
    rcases v2 with _ | o2 <;> rcases v1 with _ | o1 <;> rcases v0 with _ | o0 <;>
      simp [v2Part, v1Part, v0Part, List.length_take] <;> omega
  · rintro o2 rfl
    rw [buildKeyFindings_eq]
    rfl
  · rw [buildKeyFindings_eq]
    simp only [List.filter_append]
    rw [filter_source_of_all _ "v1" "v2" (v2Part_all v2),
      filter_source_of_all _ "v1" "v1" (v1Part_all v1),
      filter_source_of_all _ "v1" "v0" (v0Part_all v0 _)]
    simp
  · exact source_partition _ _ _ _ (buildKeyFindings_eq v0 v1 v2)
      (v2Part_all v2) (v1Part_all v1) (v0Part_all v0 _)
  · rintro o2 ⟨l1⟩ ⟨msg0, l0⟩ rfl rfl rfl h1 h0
    obtain ⟨a, b, c, rfl⟩ := List.length_eq_three.mp h1
    obtain ⟨d, e, rfl⟩ := List.length_eq_two.mp h0
    rw [buildKeyFindings_eq]
    exact ⟨rfl, rfl⟩

/-- Concrete v2 output for the gateway witnesses. -/
def witnessV2Output : ExplainV2Output :=
  { mechanism := .temporalLockIn, headline := "X", core_logic := "cl",
    power_map := "pm", irreversibility := .reversible,
    lock_in_dynamics := some { description := "d" }, escape_window := [],
    user_actions := ["act one", "act two", "act three"], confidence_level := .high }

/-- Concrete v1 output with three field explanations. -/
def witnessV1Output : ExplanationOutputV1 :=
  { risk_field_explanations :=
      [{ axis := .temporal, intensity := "medium", affected_party := "tenant",
         title := "t1", message := "m1", user_action := "check the renewal deadline",
         compounding := false, source_blocks := ["b0"] },
       { axis := .responsibility, intensity := "high", affected_party := "tenant",
         title := "t2", message := "m2", user_action := "review the repair duties",
         compounding := true, source_blocks := ["b1"] },
       { axis := .liability, intensity := "high", affected_party := "tenant",
         title := "t3", message := "m3", user_action := "note the liability clause",
         compounding := true, source_blocks := ["b2"] }] }

/-- Concrete v0 output with two blocks. -/
def witnessV0Output : ExplanationOutput :=
  { overall_message := neutralOverallMessage,
    explanation_blocks :=
      [{ title := "bt1", message := "bm1", user_action := "read the auto-renewal clause",
         severity := "low", risk_code := "AUTO_RENEWAL" },
       { title := "bt2", message := "bm2", user_action := "seek legal advice before signing",
         severity := "low", risk_code := "LIABILITY_LIMITATION" }] }

/-- Witness for C3 at the particular mix of the claim: one v2 output, a v1
output with 3 field explanations, a v0 output with 2 blocks. -/
theorem keyFindings_priority_and_caps_witness :
    (buildKeyFindings (some witnessV0Output) (some witnessV1Output)
        (some witnessV2Output)).length = 4 ∧
    (buildKeyFindings (some witnessV0Output) (some witnessV1Output)
        (some witnessV2Output)).map (fun e => entrySource e) = ["v2", "v1", "v1", "v0"] ∧
    (buildKeyFindings (some witnessV0Output) (some witnessV1Output)
        (some witnessV2Output)).head? = some (v2Finding witnessV2Output) :=
  ⟨((keyFindings_priority_and_caps (some witnessV0Output) (some witnessV1Output)
      (some witnessV2Output)).2.2.2.2 witnessV2Output witnessV1Output witnessV0Output
      rfl rfl rfl (by decide) (by decide)).1,
   ((keyFindings_priority_and_caps (some witnessV0Output) (some witnessV1Output)
      (some witnessV2Output)).2.2.2.2 witnessV2Output witnessV1Output witnessV0Output
      rfl rfl rfl (by decide) (by decide)).2,
   (keyFindings_priority_and_caps (some witnessV0Output) (some witnessV1Output)
      (some witnessV2Output)).2.1 witnessV2Output rfl⟩

/-! ## Claim C4 — next actions -/

/-- An entry that passes the deny-list filter. -/
def notFiltered (e : List (String × String)) : Bool :=
  ! shouldFilter (actionText e)

theorem collectActions_eq (cands : List (List (String × String))) :
    ∀ acc, acc.length < 2 →
      collectActions acc cands =
        acc ++ (cands.filter notFiltered).take (2 - acc.length) := by
  induction cands with
  | nil => intro acc _; simp [collectActions]
  | cons e rest ih =>
    intro acc hlen
    by_cases hf : shouldFilter (actionText e) = true
    · have hnf : notFiltered e = false := by simp [notFiltered, hf]
      have hstep : collectActions acc (e :: rest) = collectActions acc rest := by
        unfold collectActions
        rw [if_pos hf]
        cases rest <;> rfl
      rw [hstep, ih acc hlen, List.filter_cons, hnf]
      simp
    · have hnf : notFiltered e = true := by simp [notFiltered, hf]
      have hstep : collectActions acc (e :: rest) =
          (if 2 ≤ (acc ++ [e]).length then acc ++ [e]
           else collectActions (acc ++ [e]) rest) := by
        unfold collectActions
        rw [if_neg hf]
        cases rest <;> rfl
      have hfil : List.filter notFiltered (e :: rest) =
          e :: List.filter notFiltered rest := by
        rw [List.filter_cons, hnf]
        simp
      rw [hstep, hfil]
      by_cases h2 : 2 ≤ (acc ++ [e]).length
      · rw [if_pos h2]
        have ha : acc.length = 1 := by
          simp only [List.length_append, List.length_cons, List.length_nil] at h2
          omega
        simp [ha]
      · rw [if_neg h2]
        have ha : acc.length = 0 := by
          simp only [List.length_append, List.length_cons, List.length_nil] at h2
          omega
        have hlen' : (acc ++ [e]).length < 2 := by
          simp only [List.length_append, List.length_cons, List.length_nil]
          omega
        rw [ih (acc ++ [e]) hlen']
        simp [ha, List.append_assoc]

theorem collect_tier_step (X Y : List (List (String × String))) :
    (if ((X.filter notFiltered).take 2).length < 2 then
        collectActions ((X.filter notFiltered).take 2) Y
      else (X.filter notFiltered).take 2) =
      ((X ++ Y).filter notFiltered).take 2 := by
  by_cases h : ((X.filter notFiltered).take 2).length < 2
  · rw [if_pos h]
    have hlen : (X.filter notFiltered).length < 2 := by
      rw [List.length_take] at h
      omega
    have hX : (X.filter notFiltered).take 2 = X.filter notFiltered :=
      List.take_of_length_le (by omega)
    rw [collectActions_eq Y _ h, hX, List.filter_append,
      List.take_append_eq_append_take, hX]
  · rw [if_neg h]
    have hlen : 2 ≤ (X.filter notFiltered).length := by
      rw [List.length_take] at h
      omega
    rw [List.filter_append, List.take_append_of_le_length hlen]

/-- The v2 part of the next-action candidates. -/
def v2ActionPart : Option ExplainV2Output → List (List (String × String))
  | some o => o.user_actions.map (v2Action o)
  | none => []

/-- The v1 part of the next-action candidates. -/
def v1ActionPart : Option ExplanationOutputV1 → List (List (String × String))
  | some o => o.risk_field_explanations.map v1Action
  | none => []

/-- The v0 part of the next-action candidates. -/
def v0ActionPart : Option ExplanationOutput → List (List (String × String))
  | some o => o.explanation_blocks.map v0Action
  | none => []

theorem nextActionCandidates_eq (v0 : Option ExplanationOutput)
    (v1 : Option ExplanationOutputV1) (v2 : Option ExplainV2Output) :
    nextActionCandidates v0 v1 v2 =
      v2ActionPart v2 ++ v1ActionPart v1 ++ v0ActionPart v0 := by
  cases v2 <;> cases v1 <;> cases v0 <;> rfl

theorem v2ActionPart_all (v2 : Option ExplainV2Output) :
    ∀ e ∈ v2ActionPart v2, entrySource e = "v2" := by
  cases v2 with
  | none => simp [v2ActionPart]
  | some o =>
    intro e he
    obtain ⟨x, -, rfl⟩ := List.mem_map.mp he
    exact entrySource_v2Action o x

theorem v1ActionPart_all (v1 : Option ExplanationOutputV1) :
    ∀ e ∈ v1ActionPart v1, entrySource e = "v1" := by
  cases v1 with
  | none => simp [v1ActionPart]
  | some o =>
    intro e he
    obtain ⟨x, -, rfl⟩ := List.mem_map.mp he
    exact entrySource_v1Action x

theorem v0ActionPart_all (v0 : Option ExplanationOutput) :
    ∀ e ∈ v0ActionPart v0, entrySource e = "v0" := by
  cases v0 with
  | none => simp [v0ActionPart]
  | some o =>
    intro e he
    obtain ⟨x, -, rfl⟩ := List.mem_map.mp he
    exact entrySource_v0Action x

theorem buildNextActions_take (v0 : Option ExplanationOutput)
    (v1 : Option ExplanationOutputV1) (v2 : Option ExplainV2Output) :
    buildNextActions v0 v1 v2 =
      ((v2ActionPart v2 ++ v1ActionPart v1 ++ v0ActionPart v0).filter notFiltered).take 2 := by
  have hbase : ∀ Y : List (List (String × String)),
      collectActions [] Y = (Y.filter notFiltered).take 2 := fun Y => by
    simpa using collectActions_eq Y [] (by simp)
  rcases v2 with _ | o2 <;> rcases v1 with _ | o1 <;> rcases v0 with _ | o0 <;>
    simp only [buildNextActions, v2ActionPart, v1ActionPart, v0ActionPart]
  · rfl
  · -- only v0 present
    rw [show (if ([] : List (List (String × String))).length < 2 then
          collectActions [] (o0.explanation_blocks.map v0Action) else []) =
        ((([] : List (List (String × String))) ++
            (o0.explanation_blocks.map v0Action)).filter notFiltered).take 2
      from collect_tier_step [] _]
    simp
  · -- only v1 present
    rw [show (if ([] : List (List (String × String))).length < 2 then
          collectActions [] (o1.risk_field_explanations.map v1Action) else []) =
        ((([] : List (List (String × String))) ++
            (o1.risk_field_explanations.map v1Action)).filter notFiltered).take 2
      from collect_tier_step [] _]
    simp
  · -- v1 and v0 present
    rw [show (if ([] : List (List (String × String))).length < 2 then
          collectActions [] (o1.risk_field_explanations.map v1Action) else []) =
        ((([] : List (List (String × String))) ++
            (o1.risk_field_explanations.map v1Action)).filter notFiltered).take 2
      from collect_tier_step [] _]
    rw [List.nil_append, collect_tier_step]
  · -- only v2 present
    rw [hbase]
    simp
  · -- v2 and v0 present
    rw [hbase, collect_tier_step]
    simp
  · -- v2 and v1 present
    rw [hbase, collect_tier_step]
    simp
  · -- all present
    rw [hbase, collect_tier_step, collect_tier_step]

/-- **C4.** `next_actions` equals the first 2 entries of the deny-list-filtered,
tier-ordered candidate list: at most 2 entries, filtered actions do not count
toward the cap, no included action contains a deny-list phrase
(case-insensitively), and entries appear in v2 → v1 → v0 order. -/
theorem nextActions_cap_filter_priority :
    ∀ (v0 : Option ExplanationOutput) (v1 : Option ExplanationOutputV1)
      (v2 : Option ExplainV2Output),
      buildNextActions v0 v1 v2 =
        ((nextActionCandidates v0 v1 v2).filter notFiltered).take 2 ∧
      (buildNextActions v0 v1 v2).length ≤ 2 ∧
      (∀ e ∈ buildNextActions v0 v1 v2, ∀ k ∈ filterKeywords,
        strContains (strLower (actionText e)) (strLower k) = false) ∧
      buildNextActions v0 v1 v2 =
        ((buildNextActions v0 v1 v2).filter (fun e => entrySource e = "v2")) ++
        ((buildNextActions v0 v1 v2).filter (fun e => entrySource e = "v1")) ++
        ((buildNextActions v0 v1 v2).filter (fun e => entrySource e = "v0")) := by
  intro v0 v1 v2
  have hmain : buildNextActions v0 v1 v2 =
      ((nextActionCandidates v0 v1 v2).filter notFiltered).take 2 := by
    rw [nextActionCandidates_eq]
    exact buildNextActions_take v0 v1 v2
  refine ⟨hmain, ?_, ?_, ?_⟩
  · rw [hmain, List.length_take]
    omega
  · intro e he k hk
    rw [hmain] at he
    have hok : notFiltered e = true :=
      (List.mem_filter.mp (List.mem_of_mem_take he)).2
    have hsf : shouldFilter (actionText e) = false := by
      cases hx : shouldFilter (actionText e)
      · rfl
      · rw [notFiltered, hx] at hok
        cases hok
    cases hy : strContains (strLower (actionText e)) (strLower k)
    · rfl
    · have : shouldFilter (actionText e) = true := by
        unfold shouldFilter
        exact List.any_eq_true.mpr ⟨k, hk, hy⟩
      rw [this] at hsf
      cases hsf
  · have hL : buildNextActions v0 v1 v2 =
        ((v2ActionPart v2).filter notFiltered).take 2 ++
        ((v1ActionPart v1).filter notFiltered).take
          (2 - ((v2ActionPart v2).filter notFiltered).length) ++
        ((v0ActionPart v0).filter notFiltered).take
          (2 - ((v2ActionPart v2).filter notFiltered ++
            (v1ActionPart v1).filter notFiltered).length) := by
      rw [buildNextActions_take, List.filter_append, List.filter_append,
        List.take_append_eq_append_take, List.take_append_eq_append_take]
    refine source_partition _ _ _ _ hL ?_ ?_ ?_
    · intro e he
      exact v2ActionPart_all v2 e (List.mem_of_mem_filter (List.mem_of_mem_take he))
    · intro e he
      exact v1ActionPart_all v1 e (List.mem_of_mem_filter (List.mem_of_mem_take he))
    · intro e he
      exact v0ActionPart_all v0 e (List.mem_of_mem_filter (List.mem_of_mem_take he))

/-- Witness for C4 at concrete tier outputs: the v0 action
"seek legal advice before signing" is filtered out and the two included actions
come from v2. -/
theorem nextActions_cap_filter_priority_witness :
    buildNextActions (some witnessV0Output) none (some witnessV2Output) =
      ((nextActionCandidates (some witnessV0Output) none (some witnessV2Output)).filter
        notFiltered).take 2 ∧
    (buildNextActions (some witnessV0Output) none (some witnessV2Output)).length ≤ 2 ∧
    shouldFilter "seek legal advice before signing" = true :=
  ⟨(nextActions_cap_filter_priority (some witnessV0Output) none (some witnessV2Output)).1,
   (nextActions_cap_filter_priority (some witnessV0Output) none (some witnessV2Output)).2.1,
   by decide⟩

/-! ## Claim C5 — v2 explanation fails closed -/

/-- **C5.** The v2 explanation service raises iff the input's trap type is not
the temporal lock-in mechanism, and returns an output (never a silently
substituted default) iff it is. -/
theorem explainV2_fails_iff_not_temporal_lock_in :
    ∀ input_data : ExplainV2Input,
      ((∃ e, ExplainV2Service.explain input_data = Except.error e) ↔
        input_data.trap_type ≠ TrapType.temporalLockIn) ∧
      ((∃ o, ExplainV2Service.explain input_data = Except.ok o) ↔
        input_data.trap_type = TrapType.temporalLockIn) := by
  intro input_data
  by_cases h : input_data.trap_type = TrapType.temporalLockIn <;>
    simp [ExplainV2Service.explain, h]

/-- Witness for C5: a temporal lock-in input succeeds, an asymmetric-power
input is rejected. -/
theorem explainV2_fails_iff_not_temporal_lock_in_witness :
    (∃ o, ExplainV2Service.explain
      { trap_type := .temporalLockIn, strength := .high, beneficiary := .provider,
        cost_bearer := "user", irreversibility := .partiallyReversible,
        evidence := [], window := [("exists", "true")] } = Except.ok o) ∧
    (∃ e, ExplainV2Service.explain
      { trap_type := .asymmetricPower, strength := .low, beneficiary := .provider,
        cost_bearer := "user", irreversibility := .reversible,
        evidence := [], window := [] } = Except.error e) :=
  ⟨(explainV2_fails_iff_not_temporal_lock_in _).2.mpr rfl,
   (explainV2_fails_iff_not_temporal_lock_in _).1.mpr (by decide)⟩

/-! ## Claim C6 — v0 does not disclose the risk level -/

/-- **C6.** The v0 (free tier) explanation never discloses the aggregate risk
level: the overall message is one fixed neutral sentence for every input, and
any two analysis outputs that differ only in their summary's `risk_level`
produce identical v0 explain results. -/
theorem explainV0_independent_of_risk_level :
    (∀ (risk_explanations : V0Templates) (a : AnalysisOutput),
      (ExplainService.explain risk_explanations a).overall_message =
        neutralOverallMessage) ∧
    (∀ (risk_explanations : V0Templates) (a b : AnalysisOutput),
      a.risk_items = b.risk_items →
      a.risk_fields = b.risk_fields →
      a.analysis_summary.risk_flags = b.analysis_summary.risk_flags →
      a.analysis_summary.confidence = b.analysis_summary.confidence →
      ExplainService.explain risk_explanations a =
        ExplainService.explain risk_explanations b) := by
  refine ⟨fun _ _ => rfl, ?_⟩
  intro tmpl a b hitems _ _ _
  simp [ExplainService.explain, hitems]

/-- A v0 template table for the C6 witness. -/
def witnessV0Templates : V0Templates :=
  [("AUTO_RENEWAL", { title := "自动续约条款", message := "该合同包含自动续约相关条款。",
                      user_action := "请确认续约时间点。" })]

/-- Analysis output whose summary says `low`. -/
def witnessAnalysisLow : AnalysisOutput :=
  { analysis_summary := { risk_level := "low", risk_flags := ["AUTO_RENEWAL"],
                          confidence := 1 },
    risk_items := [{ risk_code := "AUTO_RENEWAL", severity := "medium",
                     evidence_rules := ["keyword_001"], description := "d" }] }

/-- The same analysis output except that the summary says `high`. -/
def witnessAnalysisHigh : AnalysisOutput :=
  { analysis_summary := { risk_level := "high", risk_flags := ["AUTO_RENEWAL"],
                          confidence := 1 },
    risk_items := [{ risk_code := "AUTO_RENEWAL", severity := "medium",
                     evidence_rules := ["keyword_001"], description := "d" }] }

/-- Witness for C6: two analysis outputs differing only in `risk_level` give
identical v0 explanations, and the overall message is the fixed neutral one. -/
theorem explainV0_independent_of_risk_level_witness :
    witnessAnalysisLow.analysis_summary.risk_level ≠
      witnessAnalysisHigh.analysis_summary.risk_level ∧
    ExplainService.explain witnessV0Templates witnessAnalysisLow =
      ExplainService.explain witnessV0Templates witnessAnalysisHigh ∧
    (ExplainService.explain witnessV0Templates witnessAnalysisLow).overall_message =
      neutralOverallMessage :=
  ⟨by decide,
   explainV0_independent_of_risk_level.2 witnessV0Templates witnessAnalysisLow
     witnessAnalysisHigh rfl rfl rfl rfl,
   explainV0_independent_of_risk_level.1 witnessV0Templates witnessAnalysisLow⟩

/-! ## Claim C10 — empty v1 behaves like absent v1 in the overview -/

/-- **C10.** In the gateway overview, a v1 output with an empty list of
risk-field explanations behaves exactly like an absent v1 tier: the overview is
the same as with `v1 = None` for every v0/v2 combination; with v2 absent,
`attention_level` is v0's highest block severity (`"low"` when v0 is absent or
has no blocks) and `summary` is v0's overall message (`""` when v0 is absent) —
never anything from the empty v1 output. -/
theorem overview_empty_v1_behaves_as_absent :
    (∀ (v0 : Option ExplanationOutput) (v2 : Option ExplainV2Output),
      buildOverview v0 (some { risk_field_explanations := [] }) v2 =
        buildOverview v0 none v2) ∧
    (∀ o : ExplanationOutput,
      buildOverview (some o) (some { risk_field_explanations := [] }) none =
        { attention_level := highestIn (o.explanation_blocks.map (·.severity)),
          summary := o.overall_message }) ∧
    buildOverview none (some { risk_field_explanations := [] }) none =
      { attention_level := "low", summary := "" } := by
  refine ⟨?_, ?_, rfl⟩
  · intro v0 v2
    cases v2 <;> rfl
  · intro o
    have hatt : v0AttentionLevel (some o) =
        highestIn (o.explanation_blocks.map (·.severity)) := by
      show (if o.explanation_blocks.isEmpty = true then "low"
        else highestIn (o.explanation_blocks.map (·.severity))) =
          highestIn (o.explanation_blocks.map (·.severity))
      split_ifs with h
      · rw [List.isEmpty_iff] at h
        rw [h]
        rfl
      · rfl
    calc buildOverview (some o) (some { risk_field_explanations := [] }) none
        = { attention_level := v0AttentionLevel (some o),
            summary := v0Summary (some o) } := rfl
      _ = _ := by rw [hatt]; rfl

end ClearLease
